import Mathlib

/-!
Verification development for the Lighthouse GatherRunner core
(src/lighthouse-core/gather/gather-runner.js).

The JavaScript source is shallowly embedded: promises that are always
awaited-with-catch are modelled as settled outcomes, the mutable
BaseArtifacts object threaded by reference is modelled as an explicit
state record, and every fallible driver operation is modelled as an
Except-valued field of an explicit Driver record.  Collaborator modules
that are not part of the repository snapshot (url-shim.js, lh-error.js,
network-request.js, network-recorder.js, manifest-parser.js,
stack-collector.js) are modelled from the specification text, as
documented on each affected definition.
-/

set_option maxRecDepth 4000

namespace Lighthouse

/-- Error codes used by getPageLoadError, mirroring the LHError.errors
table referenced by gather-runner.js. -/
inductive LHErrorCode where
  | NO_DOCUMENT_REQUEST
  | DNS_FAILURE
  | FAILED_DOCUMENT_REQUEST
  | ERRORED_DOCUMENT_REQUEST
  deriving DecidableEq, Repr

/-- Modelled from the spec: lh-error.js is not under src/.  An LHError
value carries its code plus the optional properties gather-runner.js
passes on construction (errorDetails for FAILED_DOCUMENT_REQUEST,
statusCode for ERRORED_DOCUMENT_REQUEST). -/
structure LHError where
  code : LHErrorCode
  errorDetails : Option String := none
  statusCode : Option String := none
  deriving DecidableEq, Repr

/-- Modelled from the spec: lh-error.js is not under src/.  The spec only
requires that a classification carries a user-facing message, so the
message is derived from the error code. -/
def LHError.friendlyMessage (e : LHError) : String :=
  match e.code with
  | .NO_DOCUMENT_REQUEST => "Lighthouse was unable to reliably load the URL you requested."
  | .DNS_FAILURE => "DNS servers could not resolve the provided domain."
  | .FAILED_DOCUMENT_REQUEST => "Lighthouse was unable to reliably load the page you requested."
  | .ERRORED_DOCUMENT_REQUEST => "Lighthouse was unable to reliably load the page you requested; the page returned an error status code."

/-- A JavaScript exception value: either an LHError produced by the page
load classifier, or any other thrown or rejected value, identified by a
string. -/
inductive JSError where
  | lh (e : LHError)
  | other (msg : String)
  deriving DecidableEq, Repr

/-- One network request record, with the fields gather-runner.js reads.
The record shape follows the spec description of the network log
interpreter output: url, failed flag, failure reason text, status code. -/
structure NetworkRequest where
  url : String
  failed : Bool
  localizedFailDescription : String
  statusCode : Int
  deriving DecidableEq, Repr

/-- Modelled from the spec: network-request.js is not under src/.  A
record carries an HTTP error status code exactly when its status code is
at least 400. -/
def NetworkRequest.hasErrorStatusCode (r : NetworkRequest) : Bool :=
  decide (400 ≤ r.statusCode)

/-- Modelled from the spec: url-shim.js is not under src/.  The URL with
its fragment removed, i.e. everything before the first # character. -/
def stripFragment (s : String) : String :=
  (s.toList.takeWhile (fun c => c ≠ '#')).asString

/-- Modelled from the spec: url-shim.js is not under src/.  Two URLs are
equal ignoring URL fragments when they agree after fragment removal. -/
def equalWithExcludedFragments (a b : String) : Bool :=
  stripFragment a == stripFragment b

/-- Character-list infix check used to embed the JavaScript
String.prototype.includes calls of getBaseArtifacts. -/
def hasInfix (sub : List Char) : List Char → Bool
  | [] => sub.isEmpty
  | c :: rest => sub.isPrefixOf (c :: rest) || hasInfix sub rest

/-- Whether the string s contains sub as a substring, embedding
s.includes(sub). -/
def strIncludes (s sub : String) : Bool :=
  hasInfix sub.toList s.toList

/-- Whether the string s starts with pre, embedding s.startsWith(pre)
over the underlying character lists. -/
def strStartsWith (s pre : String) : Bool :=
  pre.toList.isPrefixOf s.toList

/-- Reason texts treated as DNS failures by getPageLoadError: the two
known resolution failure strings, or any reason in the DNS error
family prefix. -/
def isDnsFailureReason (netErr : String) : Bool :=
  netErr == "net::ERR_NAME_NOT_RESOLVED" ||
  netErr == "net::ERR_NAME_RESOLUTION_FAILED" ||
  strStartsWith netErr "net::ERR_DNS_"

/-- Embedding of GatherRunner.getPageLoadError: classify the main
document request of a pass.  Returns none when the load was clean. -/
def getPageLoadError (url : String) (networkRecords : List NetworkRequest) :
    Option LHError :=
  match networkRecords.find? (fun record => equalWithExcludedFragments record.url url) with
  | none => some { code := .NO_DOCUMENT_REQUEST }
  | some mainRecord =>
    if mainRecord.failed then
      let netErr := mainRecord.localizedFailDescription
      if isDnsFailureReason netErr then
        some { code := .DNS_FAILURE }
      else
        some { code := .FAILED_DOCUMENT_REQUEST, errorDetails := some netErr }
    else if mainRecord.hasErrorStatusCode then
      some { code := .ERRORED_DOCUMENT_REQUEST, statusCode := some (toString mainRecord.statusCode) }
    else
      none

/-! ## Gatherer phases and phase histories -/

/-- A settled promise outcome: a resolved value (none models the
JavaScript undefined produced by a side-effect-only hook) or a
rejection. -/
inductive PhaseOutcome where
  | resolved (v : Option String)
  | rejected (e : JSError)
  deriving DecidableEq, Repr

/-- A configured gatherer (collector).  Each lifecycle hook is invoked at
most once per pass and is always awaited with its rejection caught, so a
hook is modelled by the settled outcome its invocation produces in that
pass.  Per-instance options only parameterize the hook calls and are
elided. -/
structure GathererDefn where
  name : String
  beforePassResult : PhaseOutcome
  passResult : PhaseOutcome
  afterPassResult : PhaseOutcome
  deriving DecidableEq, Repr

/-- A JavaScript object with string keys, as an insertion-ordered
association list (Object.entries enumerates string keys in insertion
order). -/
abbrev ObjMap (β : Type) : Type := List (String × β)

/-- Property read o[k]. -/
def objGet {β : Type} (o : ObjMap β) (k : String) : Option β :=
  (o.find? (fun p => p.1 == k)).map (fun p => p.2)

/-- Property write o[k] = v: overwrites in place when the key exists,
otherwise appends, preserving insertion order. -/
def objSet {β : Type} (o : ObjMap β) (k : String) (v : β) : ObjMap β :=
  if o.any (fun p => p.1 == k) then
    o.map (fun p => if p.1 == k then (k, v) else p)
  else
    o ++ [(k, v)]

/-- Object.assign(target, source): copy every own property of source
onto target in source insertion order. -/
def objAssign {β : Type} (target source : ObjMap β) : ObjMap β :=
  source.foldl (fun acc p => objSet acc p.1 p.2) target

/-- Per-gatherer phase histories, keyed by gatherer name: the
GathererResults object of gather-runner.js. -/
abbrev GathererResults : Type := ObjMap (List PhaseOutcome)

/-- Observable hook-invocation and teardown events, used to state which
hooks ran and in which order. -/
inductive Event where
  | invokeBeforePass (name : String)
  | invokePass (name : String)
  | invokeAfterPass (name : String)
  | disposeDriver
  deriving DecidableEq, Repr

/-- Loop body of GatherRunner.beforePass: for each gatherer in configured
order, invoke beforePass, store its outcome as a fresh singleton history
(the source assigns a one-element array), and catch any rejection so the
loop continues.  Returns the updated histories and the invocation
events in order. -/
def beforePassLoop : List GathererDefn → GathererResults →
    GathererResults × List Event
  | [], acc => (acc, [])
  | g :: rest, acc =>
    let acc' := objSet acc g.name [g.beforePassResult]
    let (res, evs) := beforePassLoop rest acc'
    (res, .invokeBeforePass g.name :: evs)

/-- Loop body of GatherRunner.pass: invoke each gatherer in configured
order and push the outcome onto that gatherer history (creating it when
absent), catching rejections so the loop continues. -/
def passPhaseLoop : List GathererDefn → GathererResults →
    GathererResults × List Event
  | [], acc => (acc, [])
  | g :: rest, acc =>
    let acc' := objSet acc g.name ((objGet acc g.name).getD [] ++ [g.passResult])
    let (res, evs) := passPhaseLoop rest acc'
    (res, .invokePass g.name :: evs)

/-- Loop body of GatherRunner.afterPass: invoke each gatherer in
configured order with the pass load data and push the outcome onto that
gatherer history, catching rejections so the loop continues. -/
def afterPassLoop : List GathererDefn → GathererResults →
    GathererResults × List Event
  | [], acc => (acc, [])
  | g :: rest, acc =>
    let acc' := objSet acc g.name ((objGet acc g.name).getD [] ++ [g.afterPassResult])
    let (res, evs) := afterPassLoop rest acc'
    (res, .invokeAfterPass g.name :: evs)

/-- Embedding of GatherRunner.fillWithPageLoadErrors: push a rejection
carrying the classified page load error onto every configured gatherer
history, without invoking any hook. -/
def fillWithPageLoadErrors (pageLoadError : LHError) :
    List GathererDefn → GathererResults → GathererResults
  | [], acc => acc
  | g :: rest, acc =>
    let acc' := objSet acc g.name
      ((objGet acc g.name).getD [] ++ [.rejected (.lh pageLoadError)])
    fillWithPageLoadErrors pageLoadError rest acc'

/-! ## Artifact collection -/

/-- The reconciled value for one gatherer: a produced artifact value or
the error that surfaced from its phase history. -/
inductive ArtifactValue where
  | value (v : String)
  | error (e : JSError)
  deriving DecidableEq, Repr

/-- Promise.all over already-settled outcomes: rejects with the first
rejection in array order, otherwise resolves with all values in
order. -/
def promiseAll : List PhaseOutcome → Except JSError (List (Option String))
  | [] => .ok []
  | .rejected e :: _ => .error e
  | .resolved v :: rest => (promiseAll rest).map (fun vs => v :: vs)

/-- The artifact a phase history yields inside collectArtifacts: the
caught Promise.all rejection if any, otherwise the last defined resolved
value; none models the undefined artifact that triggers the top-level
throw. -/
def phaseArtifact (hist : List PhaseOutcome) : Option ArtifactValue :=
  match promiseAll hist with
  | .error e => some (.error e)
  | .ok vals => ((vals.filterMap id).getLast?).map .value

/-- Loop body of GatherRunner.collectArtifacts over Object.entries of the
phase histories: skip names already assigned, otherwise record the
phase artifact, throwing when a gatherer produced nothing resolvable. -/
def collectLoop : List (String × List PhaseOutcome) → ObjMap ArtifactValue →
    Except JSError (ObjMap ArtifactValue)
  | [], acc => .ok acc
  | (gathererName, hist) :: rest, acc =>
    if (objGet acc gathererName).isSome then collectLoop rest acc
    else
      match phaseArtifact hist with
      | none => .error (.other (gathererName ++ " failed to provide an artifact."))
      | some artifact => collectLoop rest (objSet acc gathererName artifact)

/-- Deduplicate keeping the first occurrence of each element, matching
Array.from(new Set(xs)). -/
def dedupKeepFirst (seen : List String) : List String → List String
  | [] => []
  | x :: xs => if x ∈ seen then dedupKeepFirst seen xs
               else x :: dedupKeepFirst (x :: seen) xs

/-! ## Run-wide data -/

/-- Run settings, restricted to the fields gather-runner.js reads. -/
structure Settings where
  disableStorageReset : Bool
  emulatedFormFactor : Option String
  blockedUrlPatterns : Option (List String)
  extraHeaders : Option String
  deriving DecidableEq, Repr

/-- The requested/final URL pair of BaseArtifacts. -/
structure URLArtifact where
  requestedUrl : String
  finalUrl : String
  deriving DecidableEq, Repr

/-- One devtools log entry, restricted to the fields read by run: the
protocol method and the User-Agent request header (none when the
headers carry no User-Agent key). -/
structure DevtoolsLogEntry where
  method : String
  requestHeaderUserAgent : Option String
  deriving DecidableEq, Repr

/-- A captured devtools log. -/
abbrev DevtoolsLog : Type := List DevtoolsLogEntry

/-- A captured trace payload, opaque to this core. -/
abbrev Trace : Type := Nat

/-- Run-wide base artifacts, created once by getBaseArtifacts and filled
in incrementally. -/
structure BaseArtifacts where
  fetchTime : String
  LighthouseRunWarnings : List String
  TestedAsMobileDevice : Bool
  HostUserAgent : String
  NetworkUserAgent : String
  BenchmarkIndex : Int
  WebAppManifest : Option String
  Stacks : List String
  traces : ObjMap Trace
  devtoolsLogs : ObjMap DevtoolsLog
  settings : Settings
  URL : URLArtifact
  Timing : List String
  deriving DecidableEq, Repr

/-- The final artifact bundle: BaseArtifacts fields merged with one
reconciled value per gatherer name (the two key spaces are disjoint by
configuration contract). -/
structure Artifacts where
  base : BaseArtifacts
  gathererArtifacts : ObjMap ArtifactValue
  deriving DecidableEq, Repr

/-- Embedding of GatherRunner.collectArtifacts: reconcile every gatherer
phase history into one artifact value, deduplicate the run warnings
(set semantics), attach timing entries (the logging collaborator is
elided, so the timing list is carried through), and merge with the base
artifacts. -/
def collectArtifacts (gathererResults : GathererResults)
    (baseArtifacts : BaseArtifacts) : Except JSError Artifacts :=
  match collectLoop gathererResults [] with
  | .error e => .error e
  | .ok gathererArtifacts =>
    .ok { base := { baseArtifacts with
            LighthouseRunWarnings := dedupKeepFirst [] baseArtifacts.LighthouseRunWarnings,
            Timing := baseArtifacts.Timing },
          gathererArtifacts := gathererArtifacts }

/-! ## Driver, collaborators and run state -/

/-- One pass configuration. -/
structure PassConfig where
  passName : String
  gatherers : List GathererDefn
  recordTrace : Bool
  useThrottling : Bool
  blockedUrlPatterns : Option (List String)
  blankPage : Option String
  deriving Repr

/-- The neutral page URL from the default pass configuration
(config/constants.js is not under src/; modelled from the spec and the
source comments, which name about:blank). -/
def defaultBlankPage : String := "about:blank"

/-- The remote browser session, as a record of pure operations.  Each
awaited protocol call is an Except value; operations whose behavior can
differ between calls (navigation, recorded logs, traces) additionally
take the index of the call.  Behavior in the real driver is stateful;
the explicit call indices are threaded through RunState below. -/
structure Driver where
  connect : Except JSError Unit
  getBrowserVersionUserAgent : Except JSError String
  getBenchmarkIndex : Except JSError Int
  assertNoSameOriginServiceWorkerClients : String → Except JSError Unit
  beginEmulation : Except JSError Unit
  enableRuntimeEvents : Except JSError Unit
  enableAsyncStacks : Except JSError Unit
  cacheNatives : Except JSError Unit
  registerPerformanceObserver : Except JSError Unit
  dismissJavaScriptDialogs : Except JSError Unit
  clearDataForOrigin : String → Except JSError Unit
  setThrottling : Bool → Except JSError Unit
  blockUrlPatterns : List String → Except JSError Unit
  setExtraHTTPHeaders : Option String → Except JSError Unit
  cleanBrowserCaches : Except JSError Unit
  beginDevtoolsLog : Except JSError Unit
  beginTrace : Except JSError Unit
  endTrace : Nat → Except JSError Trace
  endDevtoolsLog : Nat → DevtoolsLog
  gotoURL : Nat → String → Except JSError String
  getAppManifest : Except JSError (Option (String × String))
  online : Bool
  disconnect : Except JSError Unit

/-- Pure collaborator modules consumed by gather-runner.js that are not
under src/, modelled from the spec: the network log interpreter
(network-recorder.js), the manifest parser (manifest-parser.js), the
stack detector (stack-collector.js), and the wall clock read by
getBaseArtifacts. -/
structure Externals where
  recordsFromLogs : DevtoolsLog → List NetworkRequest
  manifestParser : String → String → String → String
  stacksGatherer : Except JSError (List String)
  fetchTime : String

/-- Options handed to GatherRunner.run. -/
structure RunOptions where
  driver : Driver
  requestedUrl : String
  settings : Settings

/-- The per-pass context.  The driver handle and the shared
BaseArtifacts/warnings references of the source object are passed
alongside (driver) or live in RunState (base artifacts and warnings);
the per-gatherer options slot is elided with gatherer options. -/
structure PassContext where
  url : String
  settings : Settings
  passConfig : PassConfig
  deriving Repr

/-- The explicit run state: the shared BaseArtifacts object, the
recorded hook and teardown events, and call indices for the stateful
driver operations. -/
structure RunState where
  base : BaseArtifacts
  events : List Event
  nav : Nat
  logc : Nat
  tracec : Nat
  deriving DecidableEq, Repr

/-- The state-passing fallible computation shape every awaited step of
the run is embedded into. -/
def EM (α : Type) : Type := RunState → Except JSError α × RunState

/-- Sequencing of steps: an error short-circuits, keeping the state at
the point of failure. -/
def bindE {α β : Type} (x : EM α) (f : α → EM β) : EM β := fun st =>
  match x st with
  | (.ok a, st') => f a st'
  | (.error e, st') => (.error e, st')

/-- A step that returns a value without effects. -/
def pureE {α : Type} (a : α) : EM α := fun st => (.ok a, st)

/-- An awaited driver call with no modelled state change. -/
def liftE {α : Type} (x : Except JSError α) : EM α := fun st => (x, st)

/-- A pure state update. -/
def modE (f : RunState → RunState) : EM Unit := fun st => (.ok (), f st)

/-- A navigation: driver.gotoURL at the current navigation index,
returning the final (possibly redirected) URL. -/
def navGoto (driver : Driver) (url : String) : EM String := fun st =>
  (driver.gotoURL st.nav url, { st with nav := st.nav + 1 })

/-! ## GatherRunner steps -/

/-- Embedding of GatherRunner.loadBlank: navigate to the neutral page
(no load event is awaited there). -/
def loadBlank (driver : Driver) (url : String) : EM Unit :=
  bindE (navGoto driver url) (fun _ => pureE ())

/-- Embedding of GatherRunner.loadPage: navigate to the pass target URL
and record the post-redirect final URL into the pass context. -/
def loadPage (driver : Driver) (passContext : PassContext) : EM PassContext :=
  bindE (navGoto driver passContext.url)
    (fun finalUrl => pureE { passContext with url := finalUrl })

/-- Embedding of GatherRunner.setupDriver: the one-time ordered session
setup sequence; each step failure is fatal, and origin storage is
cleared unless storage reset is disabled. -/
def setupDriver (driver : Driver) (options : RunOptions) : EM Unit :=
  bindE (liftE (driver.assertNoSameOriginServiceWorkerClients options.requestedUrl)) (fun _ =>
  bindE (liftE driver.beginEmulation) (fun _ =>
  bindE (liftE driver.enableRuntimeEvents) (fun _ =>
  bindE (liftE driver.enableAsyncStacks) (fun _ =>
  bindE (liftE driver.cacheNatives) (fun _ =>
  bindE (liftE driver.registerPerformanceObserver) (fun _ =>
  bindE (liftE driver.dismissJavaScriptDialogs) (fun _ =>
  if options.settings.disableStorageReset then pureE ()
  else liftE (driver.clearDataForOrigin options.requestedUrl))))))))

/-- Embedding of GatherRunner.disposeDriver: best-effort disconnect;
disconnect errors are swallowed (at most logged), so teardown never
fails the run.  The disposal attempt is recorded as an event. -/
def disposeDriver (_driver : Driver) : EM Unit :=
  modE (fun st => { st with events := st.events ++ [Event.disposeDriver] })

/-- Embedding of GatherRunner.setupPassNetwork: apply pass throttling,
install the merged pass-level and global blocked URL patterns (an empty
list clears prior rules), and apply extra headers. -/
def setupPassNetwork (driver : Driver) (passContext : PassContext) : EM Unit :=
  bindE (liftE (driver.setThrottling passContext.passConfig.useThrottling)) (fun _ =>
  bindE (liftE (driver.blockUrlPatterns
      ((passContext.passConfig.blockedUrlPatterns.getD []) ++
       (passContext.settings.blockedUrlPatterns.getD [])))) (fun _ =>
  liftE (driver.setExtraHTTPHeaders passContext.settings.extraHeaders)))

/-- Embedding of GatherRunner.beginRecording: always start the devtools
log; start a trace only when the pass requests one. -/
def beginRecording (driver : Driver) (passContext : PassContext) : EM Unit :=
  bindE (liftE driver.beginDevtoolsLog) (fun _ =>
  if passContext.passConfig.recordTrace then liftE driver.beginTrace else pureE ())

/-- The data produced once per pass by endRecording. -/
structure LoadData where
  networkRecords : List NetworkRequest
  devtoolsLog : DevtoolsLog
  trace : Option Trace
  deriving Repr

/-- Embedding of GatherRunner.endRecording: stop the trace when one was
requested, stop the devtools log, and derive the network records from
the captured log via the network log interpreter. -/
def endRecording (driver : Driver) (ext : Externals) (passContext : PassContext) :
    EM LoadData :=
  bindE (if passContext.passConfig.recordTrace then
          (fun st => ((driver.endTrace st.tracec).map some,
                      { st with tracec := st.tracec + 1 }))
        else pureE none) (fun trace =>
  fun st =>
    let devtoolsLog := driver.endDevtoolsLog st.logc
    (.ok { networkRecords := ext.recordsFromLogs devtoolsLog,
           devtoolsLog := devtoolsLog, trace := trace },
     { st with logc := st.logc + 1 }))

/-- Embedding of GatherRunner.isPerfPass: storage reset enabled, trace
recorded and throttling used. -/
def isPerfPass (passContext : PassContext) : Bool :=
  !passContext.settings.disableStorageReset &&
  passContext.passConfig.recordTrace && passContext.passConfig.useThrottling

/-- The beforePass phase as a run step: run the loop and record its
invocation events. -/
def runBeforePassPhase (passContext : PassContext)
    (gathererResults : GathererResults) : EM GathererResults := fun st =>
  (.ok (beforePassLoop passContext.passConfig.gatherers gathererResults).1,
   { st with events :=
       st.events ++ (beforePassLoop passContext.passConfig.gatherers gathererResults).2 })

/-- The pass phase as a run step. -/
def runPassPhase (passContext : PassContext)
    (gathererResults : GathererResults) : EM GathererResults := fun st =>
  (.ok (passPhaseLoop passContext.passConfig.gatherers gathererResults).1,
   { st with events :=
       st.events ++ (passPhaseLoop passContext.passConfig.gatherers gathererResults).2 })

/-- The afterPass phase as a run step. -/
def runAfterPassPhase (passContext : PassContext)
    (gathererResults : GathererResults) : EM GathererResults := fun st =>
  (.ok (afterPassLoop passContext.passConfig.gatherers gathererResults).1,
   { st with events :=
       st.events ++ (afterPassLoop passContext.passConfig.gatherers gathererResults).2 })

/-- Persist the pass devtools log (always) and trace (when captured)
into BaseArtifacts, keyed by pass name. -/
def savePassData (passContext : PassContext) (loadData : LoadData) :
    RunState → RunState := fun st =>
  { st with base :=
      { st.base with
        devtoolsLogs := objSet st.base.devtoolsLogs passContext.passConfig.passName
          loadData.devtoolsLog,
        traces := match loadData.trace with
          | some t => objSet st.base.traces passContext.passConfig.passName t
          | none => st.base.traces } }

/-- Append one message to the shared run warnings sink. -/
def pushWarning (msg : String) : RunState → RunState := fun st =>
  { st with base :=
      { st.base with LighthouseRunWarnings := st.base.LighthouseRunWarnings ++ [msg] } }

/-- Embedding of GatherRunner.runPass: the per-pass state machine.
Starting on the neutral page: network setup, cache clear on perf
passes, the beforePass phase, recording start, navigation, the pass
phase, recording end, unconditional throttling disable, log/trace
persistence, page load classification (suppressed when the driver is
offline), then either the afterPass phase or the failure short-circuit
that warns once and fills every history with the classified failure. -/
def runPass (driver : Driver) (ext : Externals) (passContext : PassContext) :
    EM (GathererResults × PassContext) :=
  bindE (setupPassNetwork driver passContext) (fun _ =>
  bindE (if isPerfPass passContext then liftE driver.cleanBrowserCaches else pureE ()) (fun _ =>
  bindE (runBeforePassPhase passContext []) (fun results1 =>
  bindE (beginRecording driver passContext) (fun _ =>
  bindE (loadPage driver passContext) (fun passContext' =>
  bindE (runPassPhase passContext' results1) (fun results2 =>
  bindE (endRecording driver ext passContext') (fun loadData =>
  bindE (liftE (driver.setThrottling false)) (fun _ =>
  bindE (modE (savePassData passContext' loadData)) (fun _ =>
  match (if driver.online
         then getPageLoadError passContext'.url loadData.networkRecords
         else none) with
  | none =>
    bindE (runAfterPassPhase passContext' results2) (fun results3 =>
    pureE (results3, passContext'))
  | some pageLoadError =>
    bindE (modE (pushWarning pageLoadError.friendlyMessage)) (fun _ =>
    pureE (fillWithPageLoadErrors pageLoadError passContext'.passConfig.gatherers results2,
           passContext')))))))))))

/-! ## Top-level orchestration -/

/-- Embedding of the BaseArtifacts skeleton built by
GatherRunner.getBaseArtifacts from the host user agent string. -/
def mkBaseArtifacts (ext : Externals) (options : RunOptions)
    (hostUserAgent : String) : BaseArtifacts :=
  let IsMobileHost := strIncludes hostUserAgent "Android" || strIncludes hostUserAgent "Mobile"
  let TestedAsMobileDevice :=
    (options.settings.emulatedFormFactor == some "mobile") ||
    (!(options.settings.emulatedFormFactor == some "desktop") && IsMobileHost)
  { fetchTime := ext.fetchTime,
    LighthouseRunWarnings := [],
    TestedAsMobileDevice := TestedAsMobileDevice,
    HostUserAgent := hostUserAgent,
    NetworkUserAgent := "",
    BenchmarkIndex := 0,
    WebAppManifest := none,
    Stacks := [],
    traces := [],
    devtoolsLogs := [],
    settings := options.settings,
    URL := { requestedUrl := options.requestedUrl, finalUrl := "" },
    Timing := [] }

/-- Embedding of GatherRunner.getBaseArtifacts: query the host user
agent and build the skeleton. -/
def getBaseArtifacts (ext : Externals) (options : RunOptions) : EM BaseArtifacts :=
  bindE (liftE options.driver.getBrowserVersionUserAgent) (fun hostUserAgent =>
  pureE (mkBaseArtifacts ext options hostUserAgent))

/-- Embedding of GatherRunner.getWebAppManifest: fetch the raw manifest
through the driver; null when the page has none, otherwise the parsed
result from (raw text, manifest URL, current document URL). -/
def getWebAppManifest (driver : Driver) (ext : Externals)
    (passContext : PassContext) : EM (Option String) :=
  bindE (liftE driver.getAppManifest) (fun response =>
  match response with
  | none => pureE none
  | some (data, url) => pureE (some (ext.manifestParser data url passContext.url)))

/-- Whether a devtools log entry is a Network.requestWillBeSent whose
request headers carry a truthy User-Agent value. -/
def isUserAgentEntry (entry : DevtoolsLogEntry) : Bool :=
  entry.method == "Network.requestWillBeSent" &&
  (match entry.requestHeaderUserAgent with
   | none => false
   | some s => !(s == ""))

/-- The first-pass-only block of GatherRunner.run: record the
post-redirect final URL, resolve and attach the web-app manifest and
detected stacks, and populate the network user agent from the first
outgoing request of that pass devtools log that carries one. -/
def firstPassBlock (driver : Driver) (ext : Externals)
    (passContext : PassContext) (passConfig : PassConfig) : EM Unit :=
  bindE (modE (fun st =>
    { st with base := { st.base with
        URL := { st.base.URL with finalUrl := passContext.url } } })) (fun _ =>
  bindE (getWebAppManifest driver ext passContext) (fun manifest =>
  bindE (modE (fun st =>
    { st with base := { st.base with WebAppManifest := manifest } })) (fun _ =>
  bindE (liftE ext.stacksGatherer) (fun stackList =>
  bindE (modE (fun st =>
    { st with base := { st.base with Stacks := stackList } })) (fun _ =>
  fun st =>
    let devtoolsLog := (objGet st.base.devtoolsLogs passConfig.passName).getD []
    match devtoolsLog.find? isUserAgentEntry with
    | some entry =>
      (.ok (), { st with base := { st.base with
          NetworkUserAgent := entry.requestHeaderUserAgent.getD "" } })
    | none => (.ok (), st))))))

/-- The pass loop of GatherRunner.run: build a fresh pass context per
pass, reload the neutral page except before the first pass, run the
pass, merge its histories additively by name, and finalize the
first-pass-only metadata. -/
def passLoop (driver : Driver) (ext : Externals) (options : RunOptions) :
    Bool → List PassConfig → GathererResults → EM GathererResults
  | _, [], acc => pureE acc
  | isFirstPass, passConfig :: rest, acc =>
    let passContext : PassContext :=
      { url := options.requestedUrl, settings := options.settings,
        passConfig := passConfig }
    bindE (if isFirstPass then pureE ()
           else loadBlank driver (passConfig.blankPage.getD defaultBlankPage)) (fun _ =>
    bindE (runPass driver ext passContext) (fun passResults =>
    let acc' := objAssign acc passResults.1
    bindE (if isFirstPass then firstPassBlock driver ext passResults.2 passConfig
           else pureE ()) (fun _ =>
    passLoop driver ext options false rest acc')))

/-- Steps 1 to 7 of GatherRunner.run: connect, build and install the
base artifacts, load the neutral page, capture the benchmark index,
one-time session setup, the pass loop, and the final origin storage
clear. -/
def runCore (ext : Externals) (passes : List PassConfig) (options : RunOptions) :
    EM GathererResults :=
  let driver := options.driver
  bindE (liftE driver.connect) (fun _ =>
  bindE (getBaseArtifacts ext options) (fun baseArtifacts =>
  bindE (modE (fun st => { st with base := baseArtifacts })) (fun _ =>
  bindE (loadBlank driver defaultBlankPage) (fun _ =>
  bindE (liftE driver.getBenchmarkIndex) (fun benchmarkIndex =>
  bindE (modE (fun st =>
    { st with base := { st.base with BenchmarkIndex := benchmarkIndex } })) (fun _ =>
  bindE (setupDriver driver options) (fun _ =>
  bindE (passLoop driver ext options true passes []) (fun gathererResults =>
  bindE (if options.settings.disableStorageReset then pureE ()
         else liftE (driver.clearDataForOrigin options.requestedUrl)) (fun _ =>
  pureE gathererResults)))))))))

/-- Steps 1 to 8 of GatherRunner.run: the core steps followed by the
awaited best-effort driver disposal of the success path. -/
def runMain (ext : Externals) (passes : List PassConfig) (options : RunOptions) :
    EM GathererResults :=
  bindE (runCore ext passes options) (fun gathererResults =>
  bindE (disposeDriver options.driver) (fun _ =>
  pureE gathererResults))

/-- The empty placeholder state a run starts from; every field is
overwritten once getBaseArtifacts installs the real skeleton. -/
def initState : RunState :=
  { base :=
    { fetchTime := "", LighthouseRunWarnings := [], TestedAsMobileDevice := false,
      HostUserAgent := "", NetworkUserAgent := "", BenchmarkIndex := 0,
      WebAppManifest := none, Stacks := [], traces := [], devtoolsLogs := [],
      settings := { disableStorageReset := false, emulatedFormFactor := none,
                    blockedUrlPatterns := none, extraHeaders := none },
      URL := { requestedUrl := "", finalUrl := "" }, Timing := [] },
    events := [], nav := 0, logc := 0, tracec := 0 }

/-- Embedding of GatherRunner.run.  The source returns the
collectArtifacts promise from inside the try block without awaiting it,
so an assembly failure propagates past the catch clause; driver
disposal has already been awaited on that path.  Any exception escaping
the earlier steps triggers the catch clause: a fire-and-forget disposal
followed by re-raising the original error. -/
def run (ext : Externals) (passes : List PassConfig) (options : RunOptions) :
    Except JSError Artifacts × List Event :=
  match runMain ext passes options initState with
  | (.ok gathererResults, st) => (collectArtifacts gathererResults st.base, st.events)
  | (.error e, st) => (.error e, st.events ++ [Event.disposeDriver])

/-- The outcome value of a phase slot when it resolved with a defined
value. -/
def definedValue : PhaseOutcome → Option String
  | .resolved (some v) => some v
  | .resolved none => none
  | .rejected _ => none

/-! ## Concrete fixtures used to exercise the embedding -/

/-- A driver whose every operation succeeds; the second navigation
(the first pass target load) redirects. -/
def okDriver : Driver :=
  { connect := .ok (),
    getBrowserVersionUserAgent := .ok "TestBrowser/1.0",
    getBenchmarkIndex := .ok 500,
    assertNoSameOriginServiceWorkerClients := fun _ => .ok (),
    beginEmulation := .ok (), enableRuntimeEvents := .ok (),
    enableAsyncStacks := .ok (), cacheNatives := .ok (),
    registerPerformanceObserver := .ok (), dismissJavaScriptDialogs := .ok (),
    clearDataForOrigin := fun _ => .ok (),
    setThrottling := fun _ => .ok (), blockUrlPatterns := fun _ => .ok (),
    setExtraHTTPHeaders := fun _ => .ok (), cleanBrowserCaches := .ok (),
    beginDevtoolsLog := .ok (), beginTrace := .ok (),
    endTrace := fun n => .ok n,
    endDevtoolsLog := fun _ => [],
    gotoURL := fun n u => if n == 1 then .ok "http://a.test/b" else .ok u,
    getAppManifest := .ok none,
    online := true,
    disconnect := .ok () }

/-- Collaborators whose network interpreter reports a clean 200 response
for the post-redirect URL. -/
def okExt : Externals :=
  { recordsFromLogs := fun _ =>
      [{ url := "http://a.test/b", failed := false,
         localizedFailDescription := "", statusCode := 200 }],
    manifestParser := fun data _ _ => data,
    stacksGatherer := .ok ["js"],
    fetchTime := "2019-01-01T00:00:00.000Z" }

/-- Collaborators whose network interpreter returns no records at all,
so every pass classifies as NO_DOCUMENT_REQUEST. -/
def failExt : Externals :=
  { okExt with recordsFromLogs := fun _ => [] }

/-- A gatherer whose hooks all resolve. -/
def gathererA : GathererDefn :=
  { name := "A", beforePassResult := .resolved none,
    passResult := .resolved (some "passValue"),
    afterPassResult := .resolved (some "afterValue") }

/-- A gatherer whose beforePass hook rejects. -/
def gathererB : GathererDefn :=
  { name := "B", beforePassResult := .rejected (.other "beforeBoom"),
    passResult := .resolved (some "bPass"),
    afterPassResult := .resolved (some "bAfter") }

/-- A single pass configured with both fixture gatherers. -/
def passOne : PassConfig :=
  { passName := "defaultPass", gatherers := [gathererB, gathererA],
    recordTrace := true, useThrottling := true,
    blockedUrlPatterns := none, blankPage := none }

/-- Fixture run options. -/
def runOpts : RunOptions :=
  { driver := okDriver, requestedUrl := "http://a.test/",
    settings := { disableStorageReset := false, emulatedFormFactor := some "mobile",
                  blockedUrlPatterns := none, extraHeaders := none } }

/-- The fixture run, evaluated. -/
def wRun : Except JSError Artifacts × List Event := run okExt [passOne] runOpts

/-- The artifact bundle the fixture run produces. -/
def wArtifacts : Artifacts :=
  match wRun.1 with
  | .ok arts => arts
  | .error _ => { base := initState.base, gathererArtifacts := [] }

/-- A pass context for exercising runPass directly. -/
def ctxOne : PassContext :=
  { url := "http://a.test/", settings := runOpts.settings, passConfig := passOne }

/-- A driver that does not redirect, so the classifier sees the
requested URL. -/
def plainDriver : Driver := { okDriver with gotoURL := fun _ u => .ok u }

/-- Collaborators reporting a clean 200 response for the requested
URL. -/
def plainExt : Externals :=
  { okExt with recordsFromLogs := fun _ =>
      [{ url := "http://a.test/", failed := false,
         localizedFailDescription := "", statusCode := 200 }] }

/-- runPass on the fixture pass with an empty network log: the pass
classifies as NO_DOCUMENT_REQUEST. -/
def wFailPass : Except JSError (GathererResults × PassContext) × RunState :=
  runPass plainDriver failExt ctxOne initState

/-- The gatherer results of the failing fixture pass. -/
def wFailRes : GathererResults × PassContext :=
  match wFailPass.1 with
  | .ok r => r
  | .error _ => ([], ctxOne)

/-- runPass on the fixture pass with a clean network log. -/
def wCleanPass : Except JSError (GathererResults × PassContext) × RunState :=
  runPass plainDriver plainExt ctxOne initState

/-- The gatherer results of the clean fixture pass. -/
def wCleanRes : GathererResults × PassContext :=
  match wCleanPass.1 with
  | .ok r => r
  | .error _ => ([], ctxOne)

/-- A driver whose connection attempt fails. -/
def badDriver : Driver :=
  { okDriver with connect := .error (.other "no chrome") }

/-- Fixture options over the failing driver. -/
def badOpts : RunOptions := { runOpts with driver := badDriver }

/-- The base artifacts skeleton produced for the fixture options. -/
def wBase : BaseArtifacts :=
  match (getBaseArtifacts okExt runOpts initState).1 with
  | .ok base => base
  | .error _ => initState.base

/-- A phase history with no rejection whose last defined value is
produced by the middle hook. -/
def histLastDefined : List PhaseOutcome :=
  [.resolved none, .resolved (some "early"), .resolved none]

/-- A phase history where beforePass and afterPass resolve to defined
values and pass rejects. -/
def histPassRejected : List PhaseOutcome :=
  [.resolved (some "before"), .rejected (.other "boom"), .resolved (some "after")]

/-- A phase history every outcome of which is a rejection, with two
distinct errors. -/
def histAllRejected : List PhaseOutcome :=
  [.rejected (.other "e1"), .rejected (.other "e2")]

/-- The bundle collected from the no-rejection history fixture. -/
def wNoRejArts : Artifacts :=
  match collectArtifacts [("A", histLastDefined)] initState.base with
  | .ok arts => arts
  | .error _ => { base := initState.base, gathererArtifacts := [] }

/-- The bundle collected from the pass-rejection history fixture. -/
def wPassRejArts : Artifacts :=
  match collectArtifacts [("A", histPassRejected)] initState.base with
  | .ok arts => arts
  | .error _ => { base := initState.base, gathererArtifacts := [] }

/-! ## Helper lemmas: object maps -/

/-- First-match lookup: a list whose first match sits at index i finds
exactly that element. -/
lemma find?_eq_get_of_first {α : Type} (p : α → Bool) (l : List α) (i : Nat)
    (hi : i < l.length) (hmatch : p (l.get ⟨i, hi⟩) = true)
    (hfirst : ∀ j (hj : j < l.length), j < i → p (l.get ⟨j, hj⟩) = false) :
    l.find? p = some (l.get ⟨i, hi⟩) := by
  induction l generalizing i with
  | nil => exact absurd hi (Nat.not_lt_zero i)
  | cons a t ih =>
    cases i with
    | zero =>
      simp only [List.get] at hmatch
      simp [List.find?, hmatch]
    | succ n =>
      have ha : p a = false := by
        have := hfirst 0 (Nat.succ_pos _) (Nat.succ_pos _)
        simpa using this
      simp only [List.find?, ha]
      exact ih n (Nat.lt_of_succ_lt_succ hi) hmatch
        (fun j hj hlt => hfirst (j + 1) (Nat.succ_lt_succ hj) (Nat.succ_lt_succ hlt))

/-- Overwriting map: when some key matches, the first match of the
rewritten list is the fresh pair. -/
lemma find?_map_overwrite {β : Type} (o : ObjMap β) (k : String) (v : β)
    (hany : o.any (fun p => p.1 == k) = true) :
    (o.map (fun p => if p.1 == k then (k, v) else p)).find?
      (fun p => p.1 == k) = some (k, v) := by
  induction o with
  | nil => simp at hany
  | cons p t ih =>
    by_cases hpk : (p.1 == k) = true
    · simp [List.find?, hpk]
    · have hpk' : (p.1 == k) = false := by simpa using hpk
      have htany : t.any (fun q => q.1 == k) = true := by
        simpa [List.any_cons, hpk'] using hany
      simp only [List.map_cons, hpk', Bool.false_eq_true, if_false, List.find?, hpk']
      exact ih htany

/-- Overwriting map: lookups of a different key are unaffected. -/
lemma find?_map_overwrite_ne {β : Type} (o : ObjMap β) (k k' : String) (v : β)
    (hkk : (k == k') = false) :
    (o.map (fun p => if p.1 == k then (k, v) else p)).find?
      (fun p => p.1 == k') = o.find? (fun p => p.1 == k') := by
  induction o with
  | nil => rfl
  | cons p t ih =>
    by_cases hpk : (p.1 == k) = true
    · have hp' : (p.1 == k') = false := by
        have h1 : p.1 = k := by simpa using hpk
        rw [h1]; exact hkk
      simp only [List.map_cons, hpk, if_true, List.find?, hkk, hp']
      exact ih
    · have hpk' : (p.1 == k) = false := by simpa using hpk
      simp only [List.map_cons, hpk', Bool.false_eq_true, if_false, List.find?]
      by_cases hp' : (p.1 == k') = true
      · simp [hp']
      · have hp'' : (p.1 == k') = false := by simpa using hp'
        simp only [hp'', Bool.false_eq_true]
        exact ih

lemma objGet_objSet_self {β : Type} (o : ObjMap β) (k : String) (v : β) :
    objGet (objSet o k v) k = some v := by
  unfold objSet
  by_cases hany : o.any (fun p => p.1 == k) = true
  · simp only [hany, if_true, objGet, find?_map_overwrite o k v hany]
    rfl
  · have hany' : (o.any fun p => p.1 == k) = false := Bool.eq_false_iff.mpr hany
    have hnone : o.find? (fun p => p.1 == k) = none := by
      apply List.find?_eq_none.2
      intro x hx hcontra
      have : o.any (fun p => p.1 == k) = true :=
        List.any_eq_true.2 ⟨x, hx, hcontra⟩
      rw [this] at hany'
      cases hany'
    simp only [hany', Bool.false_eq_true, if_false, objGet, List.find?_append, hnone,
      Option.none_or, List.find?, beq_self_eq_true]
    rfl

lemma objGet_objSet_ne {β : Type} (o : ObjMap β) (k k' : String) (v : β)
    (h : k' ≠ k) :
    objGet (objSet o k v) k' = objGet o k' := by
  have hkk : (k == k') = false := by
    simpa using fun hc => h hc.symm
  unfold objSet
  by_cases hany : o.any (fun p => p.1 == k) = true
  · simp only [hany, if_true, objGet, find?_map_overwrite_ne o k k' v hkk]
  · have hany' : (o.any fun p => p.1 == k) = false := Bool.eq_false_iff.mpr hany
    simp only [hany', Bool.false_eq_true, if_false, objGet, List.find?_append,
      List.find?, hkk, Bool.false_eq_true]
    cases hfind : o.find? (fun p => p.1 == k') <;> rfl

/-! ## Helper lemmas: phase loops -/

lemma beforePassLoop_events (gs : List GathererDefn) (acc : GathererResults) :
    (beforePassLoop gs acc).2 = gs.map (fun g => Event.invokeBeforePass g.name) := by
  induction gs generalizing acc with
  | nil => rfl
  | cons g rest ih => simp [beforePassLoop, ih]

lemma passPhaseLoop_events (gs : List GathererDefn) (acc : GathererResults) :
    (passPhaseLoop gs acc).2 = gs.map (fun g => Event.invokePass g.name) := by
  induction gs generalizing acc with
  | nil => rfl
  | cons g rest ih => simp [passPhaseLoop, ih]

lemma afterPassLoop_events (gs : List GathererDefn) (acc : GathererResults) :
    (afterPassLoop gs acc).2 = gs.map (fun g => Event.invokeAfterPass g.name) := by
  induction gs generalizing acc with
  | nil => rfl
  | cons g rest ih => simp [afterPassLoop, ih]

lemma beforePassLoop_get_notin (gs : List GathererDefn) (acc : GathererResults)
    (k : String) (h : ∀ g ∈ gs, g.name ≠ k) :
    objGet (beforePassLoop gs acc).1 k = objGet acc k := by
  induction gs generalizing acc with
  | nil => rfl
  | cons g rest ih =>
    simp only [beforePassLoop]
    rw [ih _ (fun g' hg' => h g' (List.mem_cons_of_mem g hg'))]
    exact objGet_objSet_ne acc g.name k _ (fun hc => h g (List.mem_cons_self g rest) hc.symm)

lemma passPhaseLoop_get_notin (gs : List GathererDefn) (acc : GathererResults)
    (k : String) (h : ∀ g ∈ gs, g.name ≠ k) :
    objGet (passPhaseLoop gs acc).1 k = objGet acc k := by
  induction gs generalizing acc with
  | nil => rfl
  | cons g rest ih =>
    simp only [passPhaseLoop]
    rw [ih _ (fun g' hg' => h g' (List.mem_cons_of_mem g hg'))]
    exact objGet_objSet_ne acc g.name k _ (fun hc => h g (List.mem_cons_self g rest) hc.symm)

lemma afterPassLoop_get_notin (gs : List GathererDefn) (acc : GathererResults)
    (k : String) (h : ∀ g ∈ gs, g.name ≠ k) :
    objGet (afterPassLoop gs acc).1 k = objGet acc k := by
  induction gs generalizing acc with
  | nil => rfl
  | cons g rest ih =>
    simp only [afterPassLoop]
    rw [ih _ (fun g' hg' => h g' (List.mem_cons_of_mem g hg'))]
    exact objGet_objSet_ne acc g.name k _ (fun hc => h g (List.mem_cons_self g rest) hc.symm)

lemma fillWithPageLoadErrors_get_notin (e : LHError) (gs : List GathererDefn)
    (acc : GathererResults) (k : String) (h : ∀ g ∈ gs, g.name ≠ k) :
    objGet (fillWithPageLoadErrors e gs acc) k = objGet acc k := by
  induction gs generalizing acc with
  | nil => rfl
  | cons g rest ih =>
    simp only [fillWithPageLoadErrors]
    rw [ih _ (fun g' hg' => h g' (List.mem_cons_of_mem g hg'))]
    exact objGet_objSet_ne acc g.name k _ (fun hc => h g (List.mem_cons_self g rest) hc.symm)

lemma beforePassLoop_append (l1 l2 : List GathererDefn) (acc : GathererResults) :
    (beforePassLoop (l1 ++ l2) acc).1 = (beforePassLoop l2 (beforePassLoop l1 acc).1).1 := by
  induction l1 generalizing acc with
  | nil => rfl
  | cons g rest ih => simp [beforePassLoop, ih]

lemma passPhaseLoop_append (l1 l2 : List GathererDefn) (acc : GathererResults) :
    (passPhaseLoop (l1 ++ l2) acc).1 = (passPhaseLoop l2 (passPhaseLoop l1 acc).1).1 := by
  induction l1 generalizing acc with
  | nil => rfl
  | cons g rest ih => simp [passPhaseLoop, ih]

lemma afterPassLoop_append (l1 l2 : List GathererDefn) (acc : GathererResults) :
    (afterPassLoop (l1 ++ l2) acc).1 = (afterPassLoop l2 (afterPassLoop l1 acc).1).1 := by
  induction l1 generalizing acc with
  | nil => rfl
  | cons g rest ih => simp [afterPassLoop, ih]

lemma fillWithPageLoadErrors_append (e : LHError) (l1 l2 : List GathererDefn)
    (acc : GathererResults) :
    fillWithPageLoadErrors e (l1 ++ l2) acc =
      fillWithPageLoadErrors e l2 (fillWithPageLoadErrors e l1 acc) := by
  induction l1 generalizing acc with
  | nil => rfl
  | cons g rest ih => simp [fillWithPageLoadErrors, ih]

/-- A gatherer whose name is fresh within the configured list splits it
into a prefix and a suffix that both avoid its name. -/
lemma exists_split_of_nodup (gs : List GathererDefn) (g : GathererDefn)
    (hmem : g ∈ gs) (hnodup : (gs.map (fun x => x.name)).Nodup) :
    ∃ l1 l2, gs = l1 ++ g :: l2 ∧ (∀ x ∈ l1, x.name ≠ g.name) ∧
      (∀ x ∈ l2, x.name ≠ g.name) := by
  obtain ⟨l1, l2, rfl⟩ := List.append_of_mem hmem
  have hmap : ((l1 ++ g :: l2).map (fun x => x.name)) =
      (l1.map fun x => x.name) ++ g.name :: (l2.map fun x => x.name) := by simp
  rw [hmap] at hnodup
  obtain ⟨hn1, hn2, hdisj⟩ := List.nodup_append.mp hnodup
  refine ⟨l1, l2, rfl, ?_, ?_⟩
  · intro x hx heq
    exact hdisj (List.mem_map_of_mem _ hx) (by simp [heq])
  · intro x hx heq
    have hgnotin := (List.nodup_cons.mp hn2).1
    exact hgnotin (by simpa [heq] using List.mem_map_of_mem (fun x => x.name) hx)

lemma beforePassLoop_get_mem (gs : List GathererDefn) (acc : GathererResults)
    (g : GathererDefn) (hmem : g ∈ gs)
    (hnodup : (gs.map (fun x => x.name)).Nodup) :
    objGet (beforePassLoop gs acc).1 g.name = some [g.beforePassResult] := by
  obtain ⟨l1, l2, rfl, _, h2⟩ := exists_split_of_nodup gs g hmem hnodup
  rw [beforePassLoop_append]
  have hstep : (beforePassLoop (g :: l2) (beforePassLoop l1 acc).1).1 =
      (beforePassLoop l2 (objSet (beforePassLoop l1 acc).1 g.name [g.beforePassResult])).1 := rfl
  rw [hstep, beforePassLoop_get_notin _ _ _ h2, objGet_objSet_self]

lemma passPhaseLoop_get_mem (gs : List GathererDefn) (acc : GathererResults)
    (g : GathererDefn) (hmem : g ∈ gs)
    (hnodup : (gs.map (fun x => x.name)).Nodup) :
    objGet (passPhaseLoop gs acc).1 g.name =
      some ((objGet acc g.name).getD [] ++ [g.passResult]) := by
  obtain ⟨l1, l2, rfl, h1, h2⟩ := exists_split_of_nodup gs g hmem hnodup
  rw [passPhaseLoop_append]
  have hstep : (passPhaseLoop (g :: l2) (passPhaseLoop l1 acc).1).1 =
      (passPhaseLoop l2 (objSet (passPhaseLoop l1 acc).1 g.name
        ((objGet (passPhaseLoop l1 acc).1 g.name).getD [] ++ [g.passResult]))).1 := rfl
  rw [hstep, passPhaseLoop_get_notin _ _ _ h2, objGet_objSet_self,
    passPhaseLoop_get_notin _ _ _ h1]

lemma afterPassLoop_get_mem (gs : List GathererDefn) (acc : GathererResults)
    (g : GathererDefn) (hmem : g ∈ gs)
    (hnodup : (gs.map (fun x => x.name)).Nodup) :
    objGet (afterPassLoop gs acc).1 g.name =
      some ((objGet acc g.name).getD [] ++ [g.afterPassResult]) := by
  obtain ⟨l1, l2, rfl, h1, h2⟩ := exists_split_of_nodup gs g hmem hnodup
  rw [afterPassLoop_append]
  have hstep : (afterPassLoop (g :: l2) (afterPassLoop l1 acc).1).1 =
      (afterPassLoop l2 (objSet (afterPassLoop l1 acc).1 g.name
        ((objGet (afterPassLoop l1 acc).1 g.name).getD [] ++ [g.afterPassResult]))).1 := rfl
  rw [hstep, afterPassLoop_get_notin _ _ _ h2, objGet_objSet_self,
    afterPassLoop_get_notin _ _ _ h1]

lemma fillWithPageLoadErrors_get_mem (e : LHError) (gs : List GathererDefn)
    (acc : GathererResults) (g : GathererDefn) (hmem : g ∈ gs)
    (hnodup : (gs.map (fun x => x.name)).Nodup) :
    objGet (fillWithPageLoadErrors e gs acc) g.name =
      some ((objGet acc g.name).getD [] ++ [.rejected (.lh e)]) := by
  obtain ⟨l1, l2, rfl, h1, h2⟩ := exists_split_of_nodup gs g hmem hnodup
  rw [fillWithPageLoadErrors_append]
  have hstep : fillWithPageLoadErrors e (g :: l2) (fillWithPageLoadErrors e l1 acc) =
      fillWithPageLoadErrors e l2 (objSet (fillWithPageLoadErrors e l1 acc) g.name
        ((objGet (fillWithPageLoadErrors e l1 acc) g.name).getD [] ++ [.rejected (.lh e)])) := rfl
  rw [hstep, fillWithPageLoadErrors_get_notin _ _ _ _ h2, objGet_objSet_self,
    fillWithPageLoadErrors_get_notin _ _ _ _ h1]

/-! ## Helper lemmas: runPass characterization -/

set_option maxHeartbeats 1000000

lemma setupPassNetwork_state (driver : Driver) (ctx : PassContext) (st : RunState) :
    ∃ r, setupPassNetwork driver ctx st = (r, st) := by
  unfold setupPassNetwork bindE liftE
  cases driver.setThrottling ctx.passConfig.useThrottling with
  | error e => exact ⟨.error e, rfl⟩
  | ok _ =>
    cases driver.blockUrlPatterns ((ctx.passConfig.blockedUrlPatterns.getD []) ++
        (ctx.settings.blockedUrlPatterns.getD [])) with
    | error e => exact ⟨.error e, rfl⟩
    | ok _ => exact ⟨_, rfl⟩

lemma cleanCaches_state (driver : Driver) (ctx : PassContext) (st : RunState) :
    ∃ r, ((if isPerfPass ctx then liftE driver.cleanBrowserCaches else pureE ()) : EM Unit) st
      = (r, st) := by
  cases hp : isPerfPass ctx <;> simp [hp, liftE, pureE]

lemma beginRecording_state (driver : Driver) (ctx : PassContext) (st : RunState) :
    ∃ r, beginRecording driver ctx st = (r, st) := by
  unfold beginRecording bindE liftE pureE
  cases driver.beginDevtoolsLog with
  | error e => exact ⟨.error e, rfl⟩
  | ok _ => cases hrt : ctx.passConfig.recordTrace <;> simp

lemma endRecording_state (driver : Driver) (ext : Externals) (ctx : PassContext)
    (st : RunState) :
    ∃ r st2, endRecording driver ext ctx st = (r, st2) ∧
      ∀ ld, r = .ok ld → ld.devtoolsLog = driver.endDevtoolsLog st.logc ∧
        ld.networkRecords = ext.recordsFromLogs (driver.endDevtoolsLog st.logc) ∧
        st2.base = st.base ∧ st2.events = st.events ∧ st2.nav = st.nav ∧
        st2.logc = st.logc + 1 := by
  unfold endRecording bindE pureE
  cases hrt : ctx.passConfig.recordTrace with
  | false =>
    simp only [Bool.false_eq_true, if_false]
    refine ⟨_, _, rfl, ?_⟩
    intro ld hld
    cases hld
    exact ⟨rfl, rfl, rfl, rfl, rfl, rfl⟩
  | true =>
    simp only [if_true]
    cases htr : driver.endTrace st.tracec with
    | error e =>
      simp only [Except.map]
      exact ⟨_, _, rfl, by intro ld hld; cases hld⟩
    | ok t =>
      simp only [Except.map]
      refine ⟨_, _, rfl, ?_⟩
      intro ld hld
      cases hld
      exact ⟨rfl, rfl, rfl, rfl, rfl, rfl⟩


/-- Full characterization of a successful runPass. -/
lemma runPass_ok_spec (driver : Driver) (ext : Externals) (ctx : PassContext)
    (st st' : RunState) (res : GathererResults) (ctx' : PassContext)
    (h : runPass driver ext ctx st = (.ok (res, ctx'), st')) :
    driver.gotoURL st.nav ctx.url = .ok ctx'.url ∧
    ctx'.settings = ctx.settings ∧ ctx'.passConfig = ctx.passConfig ∧
    st'.nav = st.nav + 1 ∧ st'.logc = st.logc + 1 ∧
    st'.base.URL = st.base.URL ∧
    st'.base.NetworkUserAgent = st.base.NetworkUserAgent ∧
    st'.base.devtoolsLogs =
      objSet st.base.devtoolsLogs ctx.passConfig.passName (driver.endDevtoolsLog st.logc) ∧
    (match (if driver.online
            then getPageLoadError ctx'.url (ext.recordsFromLogs (driver.endDevtoolsLog st.logc))
            else none) with
     | none =>
         res = (afterPassLoop ctx.passConfig.gatherers
           (passPhaseLoop ctx.passConfig.gatherers
             (beforePassLoop ctx.passConfig.gatherers []).1).1).1 ∧
         st'.events = st.events ++
           ctx.passConfig.gatherers.map (fun g => Event.invokeBeforePass g.name) ++
           ctx.passConfig.gatherers.map (fun g => Event.invokePass g.name) ++
           ctx.passConfig.gatherers.map (fun g => Event.invokeAfterPass g.name) ∧
         st'.base.LighthouseRunWarnings = st.base.LighthouseRunWarnings
     | some ple =>
         res = fillWithPageLoadErrors ple ctx.passConfig.gatherers
           (passPhaseLoop ctx.passConfig.gatherers
             (beforePassLoop ctx.passConfig.gatherers []).1).1 ∧
         st'.events = st.events ++
           ctx.passConfig.gatherers.map (fun g => Event.invokeBeforePass g.name) ++
           ctx.passConfig.gatherers.map (fun g => Event.invokePass g.name) ∧
         st'.base.LighthouseRunWarnings =
           st.base.LighthouseRunWarnings ++ [ple.friendlyMessage]) := by
  unfold runPass bindE at h
  obtain ⟨r1, h1⟩ := setupPassNetwork_state driver ctx st
  rw [h1] at h
  cases r1 with
  | error e => simp at h
  | ok u1 =>
  simp only at h
  obtain ⟨r2, h2⟩ := cleanCaches_state driver ctx st
  rw [h2] at h
  cases r2 with
  | error e => simp at h
  | ok u2 =>
  simp only [runBeforePassPhase] at h
  obtain ⟨r3, h3⟩ := beginRecording_state driver ctx
    { st with events := st.events ++ (beforePassLoop ctx.passConfig.gatherers []).2 }
  rw [h3] at h
  cases r3 with
  | error e => simp at h
  | ok u3 =>
  simp only [loadPage, navGoto, bindE, pureE] at h
  cases hgoto : driver.gotoURL st.nav ctx.url with
  | error e => rw [hgoto] at h; simp at h
  | ok u =>
  rw [hgoto] at h
  simp only [runPassPhase] at h
  obtain ⟨r4, st4, h4, h4ok⟩ := endRecording_state driver ext
    { url := u, settings := ctx.settings, passConfig := ctx.passConfig }
    { base := st.base,
      events := st.events ++ (beforePassLoop ctx.passConfig.gatherers []).2 ++
        (passPhaseLoop ctx.passConfig.gatherers
          (beforePassLoop ctx.passConfig.gatherers []).1).2,
      nav := st.nav + 1, logc := st.logc, tracec := st.tracec }
  rw [h4] at h
  cases r4 with
  | error e => simp at h
  | ok ld =>
  obtain ⟨hld1, hld2, hst4b, hst4e, hst4n, hst4l⟩ := h4ok ld rfl
  simp only at hst4b hst4e hst4n hst4l hld1 hld2
  simp only at h
  cases h5 : driver.setThrottling false with
  | error e => rw [liftE, h5] at h; simp at h
  | ok u5 =>
  rw [liftE, h5] at h
  simp only [modE, savePassData, pushWarning, runAfterPassPhase] at h
  rw [hld1, hld2] at h
  cases hple : (if driver.online = true
      then getPageLoadError u (ext.recordsFromLogs (driver.endDevtoolsLog st.logc))
      else none) with
  | none =>
    rw [hple] at h
    simp only [Prod.mk.injEq, Except.ok.injEq] at h
    obtain ⟨⟨hres, hctx⟩, hst⟩ := h
    subst hctx
    subst hst
    subst hres
    simp only [hst4b, hst4e, hst4n, hst4l, beforePassLoop_events, passPhaseLoop_events,
      afterPassLoop_events]
    simp only [hple]
    simp
  | some ple =>
    rw [hple] at h
    simp only [Prod.mk.injEq, Except.ok.injEq] at h
    obtain ⟨⟨hres, hctx⟩, hst⟩ := h
    subst hctx
    subst hst
    subst hres
    simp only [hst4b, hst4e, hst4n, hst4l, beforePassLoop_events, passPhaseLoop_events,
      afterPassLoop_events]
    simp only [hple]
    simp

/-! ## Helper lemmas: artifact collection -/

lemma promiseAll_no_rejection (hist : List PhaseOutcome)
    (h : ∀ o ∈ hist, ∀ e, o ≠ PhaseOutcome.rejected e) :
    ∃ vals, promiseAll hist = .ok vals ∧
      vals.filterMap id = hist.filterMap definedValue := by
  induction hist with
  | nil => exact ⟨[], rfl, rfl⟩
  | cons o rest ih =>
    obtain ⟨vals, hok, hfm⟩ := ih (fun o' ho' => h o' (List.mem_cons_of_mem o ho'))
    cases o with
    | rejected e => exact absurd rfl (h _ (List.mem_cons_self _ _) e)
    | resolved v =>
      refine ⟨v :: vals, ?_, ?_⟩
      · simp [promiseAll, hok, Except.map]
      · cases v with
        | none => simpa [List.filterMap, definedValue] using hfm
        | some s => simpa [List.filterMap, definedValue] using hfm

lemma promiseAll_first_rejection (pre : List PhaseOutcome) (e : JSError)
    (rest : List PhaseOutcome)
    (h : ∀ o ∈ pre, ∀ e', o ≠ PhaseOutcome.rejected e') :
    promiseAll (pre ++ PhaseOutcome.rejected e :: rest) = .error e := by
  induction pre with
  | nil => rfl
  | cons o pre' ih =>
    cases o with
    | rejected e' => exact absurd rfl (h _ (List.mem_cons_self _ _) e')
    | resolved v =>
      simp [promiseAll, Except.map, ih (fun o' ho' => h o' (List.mem_cons_of_mem _ ho'))]

lemma phaseArtifact_no_rejection (hist : List PhaseOutcome) (v : String)
    (hnorej : ∀ o ∈ hist, ∀ e, o ≠ PhaseOutcome.rejected e)
    (hlast : (hist.filterMap definedValue).getLast? = some v) :
    phaseArtifact hist = some (.value v) := by
  obtain ⟨vals, hok, hfm⟩ := promiseAll_no_rejection hist hnorej
  unfold phaseArtifact
  rw [hok]
  simp [hfm, hlast]

lemma phaseArtifact_first_rejection (pre : List PhaseOutcome) (e : JSError)
    (rest : List PhaseOutcome)
    (h : ∀ o ∈ pre, ∀ e', o ≠ PhaseOutcome.rejected e') :
    phaseArtifact (pre ++ PhaseOutcome.rejected e :: rest) = some (.error e) := by
  unfold phaseArtifact
  rw [promiseAll_first_rejection pre e rest h]

lemma collectLoop_get_preserve (l : List (String × List PhaseOutcome))
    (acc out : ObjMap ArtifactValue) (k : String)
    (hout : collectLoop l acc = .ok out) (hk : ∀ p ∈ l, p.1 ≠ k) :
    objGet out k = objGet acc k := by
  induction l generalizing acc with
  | nil => cases hout; rfl
  | cons p rest ih =>
    obtain ⟨nm, hist⟩ := p
    unfold collectLoop at hout
    by_cases hskip : (objGet acc nm).isSome
    · rw [if_pos hskip] at hout
      exact ih acc hout (fun q hq => hk q (List.mem_cons_of_mem _ hq))
    · rw [if_neg hskip] at hout
      cases hart : phaseArtifact hist with
      | none => rw [hart] at hout; cases hout
      | some a =>
        rw [hart] at hout
        have hne : k ≠ nm := fun hc => (hk (nm, hist) (List.mem_cons_self _ _)) hc.symm
        rw [ih _ hout (fun q hq => hk q (List.mem_cons_of_mem _ hq))]
        exact objGet_objSet_ne acc nm k a hne

lemma collectLoop_get (l : List (String × List PhaseOutcome))
    (acc out : ObjMap ArtifactValue) (nm : String) (hist : List PhaseOutcome)
    (hnodup : (l.map Prod.fst).Nodup) (hmem : (nm, hist) ∈ l)
    (hacc : objGet acc nm = none) (hout : collectLoop l acc = .ok out) :
    ∃ a, phaseArtifact hist = some a ∧ objGet out nm = some a := by
  induction l generalizing acc with
  | nil => cases hmem
  | cons p rest ih =>
    obtain ⟨k, hs⟩ := p
    have hnodupc := List.nodup_cons.mp
      (show (k :: rest.map Prod.fst).Nodup from hnodup)
    rcases List.mem_cons.mp hmem with hhead | htail
    · cases hhead
      unfold collectLoop at hout
      rw [if_neg (by simp [hacc])] at hout
      cases hart : phaseArtifact hist with
      | none => rw [hart] at hout; cases hout
      | some a =>
        rw [hart] at hout
        refine ⟨a, rfl, ?_⟩
        have hrest : ∀ p ∈ rest, p.1 ≠ nm := by
          intro q hq hc
          apply hnodupc.1
          rw [← hc]
          exact List.mem_map_of_mem Prod.fst hq
        rw [collectLoop_get_preserve rest _ out nm hout hrest]
        exact objGet_objSet_self acc nm a
    · have hkne : k ≠ nm := by
        intro hc
        apply hnodupc.1
        rw [hc]
        exact List.mem_map_of_mem Prod.fst htail
      have hnodup' : (rest.map Prod.fst).Nodup := hnodupc.2
      unfold collectLoop at hout
      by_cases hskip : (objGet acc k).isSome
      · rw [if_pos hskip] at hout
        exact ih _ hnodup' htail hacc hout
      · rw [if_neg hskip] at hout
        cases hart : phaseArtifact hs with
        | none => rw [hart] at hout; cases hout
        | some a =>
          rw [hart] at hout
          exact ih _ hnodup' htail
            (by rw [objGet_objSet_ne acc k nm a (fun hc => hkne hc.symm)]; exact hacc) hout

lemma collectLoop_ok_of_all (l : List (String × List PhaseOutcome))
    (acc : ObjMap ArtifactValue)
    (hall : ∀ p ∈ l, (phaseArtifact p.2).isSome) :
    ∃ out, collectLoop l acc = .ok out := by
  induction l generalizing acc with
  | nil => exact ⟨acc, rfl⟩
  | cons p rest ih =>
    obtain ⟨k, hs⟩ := p
    unfold collectLoop
    by_cases hskip : (objGet acc k).isSome
    · rw [if_pos hskip]
      exact ih acc (fun q hq => hall q (List.mem_cons_of_mem _ hq))
    · rw [if_neg hskip]
      cases hart : phaseArtifact hs with
      | none =>
        have := hall (k, hs) (List.mem_cons_self _ _)
        rw [hart] at this
        cases this
      | some a =>
        exact ih _ (fun q hq => hall q (List.mem_cons_of_mem _ hq))

lemma collectArtifacts_ok_get (results : GathererResults) (base : BaseArtifacts)
    (arts : Artifacts) (nm : String) (hist : List PhaseOutcome)
    (hnodup : (results.map Prod.fst).Nodup) (hmem : (nm, hist) ∈ results)
    (hok : collectArtifacts results base = .ok arts) :
    ∃ a, phaseArtifact hist = some a ∧ objGet arts.gathererArtifacts nm = some a := by
  unfold collectArtifacts at hok
  cases hcl : collectLoop results [] with
  | error e => rw [hcl] at hok; cases hok
  | ok ga =>
    rw [hcl] at hok
    obtain ⟨a, ha, hget⟩ := collectLoop_get results [] ga nm hist hnodup hmem rfl hcl
    cases hok
    exact ⟨a, ha, hget⟩

lemma collectArtifacts_ok_base (results : GathererResults) (base : BaseArtifacts)
    (arts : Artifacts) (hok : collectArtifacts results base = .ok arts) :
    arts.base.URL = base.URL ∧ arts.base.NetworkUserAgent = base.NetworkUserAgent := by
  unfold collectArtifacts at hok
  cases hcl : collectLoop results [] with
  | error e => rw [hcl] at hok; cases hok
  | ok ga => rw [hcl] at hok; cases hok; exact ⟨rfl, rfl⟩

/-! ## Claim C1: the page load classifier truth table -/

/-- C1.  For every ordered list of network records and every target URL,
getPageLoadError returns NO_DOCUMENT_REQUEST when no record URL equals
the target ignoring fragments; for the first matching record:
DNS_FAILURE when it failed with one of the DNS reason texts,
FAILED_DOCUMENT_REQUEST carrying the raw reason for any other failure,
ERRORED_DOCUMENT_REQUEST carrying the status code as text when not
failed but carrying an HTTP error status code, and no failure
otherwise.  The function is a pure, synchronous Lean function by
construction. -/
theorem getPageLoadError_characterization (url : String)
    (records : List NetworkRequest) :
    ((∀ r ∈ records, equalWithExcludedFragments r.url url = false) →
      getPageLoadError url records =
        some { code := .NO_DOCUMENT_REQUEST, errorDetails := none, statusCode := none }) ∧
    (∀ i (hi : i < records.length),
      equalWithExcludedFragments (records.get ⟨i, hi⟩).url url = true →
      (∀ j (hj : j < records.length), j < i →
        equalWithExcludedFragments (records.get ⟨j, hj⟩).url url = false) →
      ((records.get ⟨i, hi⟩).failed = true →
        ((((records.get ⟨i, hi⟩).localizedFailDescription = "net::ERR_NAME_NOT_RESOLVED" ∨
           (records.get ⟨i, hi⟩).localizedFailDescription = "net::ERR_NAME_RESOLUTION_FAILED" ∨
           strStartsWith (records.get ⟨i, hi⟩).localizedFailDescription "net::ERR_DNS_" = true) →
          getPageLoadError url records =
            some { code := .DNS_FAILURE, errorDetails := none, statusCode := none }) ∧
         (¬((records.get ⟨i, hi⟩).localizedFailDescription = "net::ERR_NAME_NOT_RESOLVED" ∨
            (records.get ⟨i, hi⟩).localizedFailDescription = "net::ERR_NAME_RESOLUTION_FAILED" ∨
            strStartsWith (records.get ⟨i, hi⟩).localizedFailDescription "net::ERR_DNS_" = true) →
          getPageLoadError url records =
            some { code := .FAILED_DOCUMENT_REQUEST,
                   errorDetails := some (records.get ⟨i, hi⟩).localizedFailDescription,
                   statusCode := none }))) ∧
      ((records.get ⟨i, hi⟩).failed = false →
        (((records.get ⟨i, hi⟩).hasErrorStatusCode = true →
          getPageLoadError url records =
            some { code := .ERRORED_DOCUMENT_REQUEST, errorDetails := none,
                   statusCode := some (toString (records.get ⟨i, hi⟩).statusCode) }) ∧
         ((records.get ⟨i, hi⟩).hasErrorStatusCode = false →
          getPageLoadError url records = none)))) := by
  constructor
  · intro hnone
    have hfind : records.find? (fun r => equalWithExcludedFragments r.url url) = none := by
      apply List.find?_eq_none.2
      intro r hr hc
      rw [hnone r hr] at hc
      cases hc
    unfold getPageLoadError
    rw [hfind]
  · intro i hi hmatch hfirst
    have hfind := find?_eq_get_of_first
      (fun r => equalWithExcludedFragments r.url url) records i hi hmatch hfirst
    set r := records.get ⟨i, hi⟩ with hr
    have hunf : getPageLoadError url records =
        (if r.failed then
          (if isDnsFailureReason r.localizedFailDescription then
            some { code := .DNS_FAILURE, errorDetails := none, statusCode := none }
          else
            some { code := .FAILED_DOCUMENT_REQUEST,
                   errorDetails := some r.localizedFailDescription, statusCode := none })
        else if r.hasErrorStatusCode then
          some { code := .ERRORED_DOCUMENT_REQUEST, errorDetails := none,
                 statusCode := some (toString r.statusCode) }
        else none) := by
      unfold getPageLoadError
      rw [hfind]
    constructor
    · intro hfail
      constructor
      · intro hdns
        have hd : isDnsFailureReason r.localizedFailDescription = true := by
          unfold isDnsFailureReason
          rw [Bool.or_eq_true, Bool.or_eq_true, beq_iff_eq, beq_iff_eq]
          exact or_assoc.mpr hdns
        rw [hunf, if_pos hfail, if_pos hd]
      · intro hnd
        have hd : isDnsFailureReason r.localizedFailDescription = false := by
          apply Bool.eq_false_iff.mpr
          intro hc
          apply hnd
          unfold isDnsFailureReason at hc
          rw [Bool.or_eq_true, Bool.or_eq_true, beq_iff_eq, beq_iff_eq] at hc
          exact or_assoc.mp hc
        rw [hunf, if_pos hfail, if_neg (by rw [hd]; exact Bool.false_ne_true)]
    · intro hfail
      have hnf : ¬(r.failed = true) := by rw [hfail]; exact Bool.false_ne_true
      constructor
      · intro herr
        rw [hunf, if_neg hnf, if_pos herr]
      · intro herr
        rw [hunf, if_neg hnf, if_neg (by rw [herr]; exact Bool.false_ne_true)]

/-- Witness for C1: a two-record list whose second record is the first
match and failed with a DNS-family reason classifies as DNS_FAILURE. -/
theorem getPageLoadError_characterization_witness :
    getPageLoadError "http://a.test/"
      [{ url := "http://other.test/", failed := false,
         localizedFailDescription := "", statusCode := 200 },
       { url := "http://a.test/#frag", failed := true,
         localizedFailDescription := "net::ERR_DNS_TIMED_OUT", statusCode := 0 }] =
      some { code := .DNS_FAILURE, errorDetails := none, statusCode := none } :=
  (((getPageLoadError_characterization "http://a.test/"
      [{ url := "http://other.test/", failed := false,
         localizedFailDescription := "", statusCode := 200 },
       { url := "http://a.test/#frag", failed := true,
         localizedFailDescription := "net::ERR_DNS_TIMED_OUT", statusCode := 0 }]).2
    1 (by decide) (by decide)
    (by
      intro j hj hlt
      have hj0 : j = 0 := Nat.lt_one_iff.mp hlt
      subst hj0
      show equalWithExcludedFragments "http://other.test/" "http://a.test/" = false
      decide)).1 (by decide)).1 (by decide)

/-! ## Claim C3: last defined value wins -/

/-- C3.  For every collector whose phase history contains no rejection
and at least one defined value, collectArtifacts assigns the last
defined value in phase order as its artifact; trailing undefined
results leave the earlier value standing. -/
theorem collectArtifacts_lastDefined (results : GathererResults)
    (base : BaseArtifacts) (arts : Artifacts) (nm : String)
    (hist : List PhaseOutcome) (v : String)
    (hnodup : (results.map Prod.fst).Nodup) (hmem : (nm, hist) ∈ results)
    (hnorej : ∀ o ∈ hist, ∀ e, o ≠ PhaseOutcome.rejected e)
    (hlast : (hist.filterMap definedValue).getLast? = some v)
    (hok : collectArtifacts results base = .ok arts) :
    objGet arts.gathererArtifacts nm = some (.value v) := by
  obtain ⟨a, ha, hget⟩ := collectArtifacts_ok_get results base arts nm hist hnodup hmem hok
  rw [phaseArtifact_no_rejection hist v hnorej hlast] at ha
  cases ha
  exact hget

/-- Witness for C3: a history resolving to undefined, "early",
undefined yields the artifact "early". -/
theorem collectArtifacts_lastDefined_witness :
    objGet wNoRejArts.gathererArtifacts "A" = some (.value "early") :=
  collectArtifacts_lastDefined [("A", histLastDefined)] initState.base wNoRejArts
    "A" histLastDefined "early" (by decide) (by simp)
    (by intro o ho e; fin_cases ho <;> simp [histLastDefined])
    (by decide) rfl

/-! ## Claim C4 (corrected): a pass rejection is the artifact -/

/-- Counterexample to C4 as stated: with beforePass resolving to
"before", pass rejecting and afterPass resolving to "after", the
artifact is the pass rejection error, not the afterPass value. -/
theorem collectArtifacts_passRejection_counterexample :
    objGet wPassRejArts.gathererArtifacts "A" = some (.error (.other "boom")) ∧
    objGet wPassRejArts.gathererArtifacts "A" ≠ some (.value "after") := by
  constructor
  · rfl
  · decide

/-- C4 as amended: for every collector whose beforePass and afterPass
hooks resolve to defined values but whose pass hook rejects, the final
artifact for that collector is the error object of the pass rejection;
the resolved values are discarded, not the rejection. -/
theorem collectArtifacts_passRejectionWins (results : GathererResults)
    (base : BaseArtifacts) (arts : Artifacts) (nm : String)
    (b c : String) (e : JSError)
    (hnodup : (results.map Prod.fst).Nodup)
    (hmem : (nm, [PhaseOutcome.resolved (some b), PhaseOutcome.rejected e,
                  PhaseOutcome.resolved (some c)]) ∈ results)
    (hok : collectArtifacts results base = .ok arts) :
    objGet arts.gathererArtifacts nm = some (.error e) := by
  obtain ⟨a, ha, hget⟩ := collectArtifacts_ok_get results base arts nm _ hnodup hmem hok
  have hart : phaseArtifact [PhaseOutcome.resolved (some b), PhaseOutcome.rejected e,
      PhaseOutcome.resolved (some c)] = some (.error e) := rfl
  rw [hart] at ha
  cases ha
  exact hget

/-- Witness for the amended C4. -/
theorem collectArtifacts_passRejectionWins_witness :
    objGet wPassRejArts.gathererArtifacts "A" = some (.error (.other "boom")) :=
  collectArtifacts_passRejectionWins [("A", histPassRejected)] initState.base
    wPassRejArts "A" "before" "after" (.other "boom") (by decide) (by simp [histPassRejected]) rfl

/-! ## Claim C5 (corrected): the first captured error surfaces -/

/-- Counterexample to C5 as stated: when every phase outcome is a
rejection, the artifact is the first captured error, not the last. -/
theorem collectArtifacts_allRejected_counterexample :
    (match collectArtifacts [("A", histAllRejected)] initState.base with
      | .ok arts => objGet arts.gathererArtifacts "A"
      | .error _ => none) = some (.error (.other "e1")) ∧
    ArtifactValue.error (.other "e1") ≠ ArtifactValue.error (.other "e2") := by
  constructor
  · rfl
  · decide

/-- C5 as amended: for every collector every one of whose phase outcomes
is a rejection, collectArtifacts does not abort the run, and the value
for that collector in the bundle is the first captured error in phase
order. -/
theorem collectArtifacts_allRejectedFirstError (results : GathererResults)
    (base : BaseArtifacts) (nm : String) (e : JSError)
    (rest : List PhaseOutcome)
    (hnodup : (results.map Prod.fst).Nodup)
    (hmem : (nm, PhaseOutcome.rejected e :: rest) ∈ results)
    (hall : ∀ o ∈ rest, ∃ e', o = PhaseOutcome.rejected e')
    (hothers : ∀ p ∈ results, (phaseArtifact p.2).isSome) :
    ∃ arts, collectArtifacts results base = .ok arts ∧
      objGet arts.gathererArtifacts nm = some (.error e) := by
  obtain ⟨out, hout⟩ := collectLoop_ok_of_all results [] hothers
  refine ⟨{ base := { base with
      LighthouseRunWarnings := dedupKeepFirst [] base.LighthouseRunWarnings,
      Timing := base.Timing }, gathererArtifacts := out }, ?_, ?_⟩
  · unfold collectArtifacts
    rw [hout]
  · obtain ⟨a, ha, hget⟩ := collectLoop_get results [] out nm _ hnodup hmem rfl hout
    have hart : phaseArtifact (PhaseOutcome.rejected e :: rest) = some (.error e) := rfl
    rw [hart] at ha
    cases ha
    exact hget

/-- Witness for the amended C5. -/
theorem collectArtifacts_allRejectedFirstError_witness :
    ∃ arts, collectArtifacts [("A", histAllRejected)] initState.base = .ok arts ∧
      objGet arts.gathererArtifacts "A" = some (.error (.other "e1")) :=
  collectArtifacts_allRejectedFirstError [("A", histAllRejected)] initState.base
    "A" (.other "e1") [.rejected (.other "e2")] (by decide) (by simp [histAllRejected])
    (by intro o ho; simp only [List.mem_singleton] at ho; exact ⟨.other "e2", ho⟩)
    (by intro p hp; simp only [List.mem_singleton] at hp; subst hp; decide)

/-! ## Claim C7: the TestedAsMobileDevice flag -/

/-- C7.  For every settings object and host user agent, the
TestedAsMobileDevice flag built by getBaseArtifacts is true exactly when
the emulated form factor is mobile, or it is neither mobile nor desktop
and the host user agent contains Android or Mobile; in particular a
desktop setting forces false whatever the host user agent is. -/
theorem getBaseArtifacts_testedAsMobileDevice (ext : Externals)
    (options : RunOptions) (st st2 : RunState) (base : BaseArtifacts) (ua : String)
    (hua : options.driver.getBrowserVersionUserAgent = .ok ua)
    (h : getBaseArtifacts ext options st = (.ok base, st2)) :
    base.HostUserAgent = ua ∧
    (base.TestedAsMobileDevice = true ↔
      (options.settings.emulatedFormFactor = some "mobile" ∨
       (options.settings.emulatedFormFactor ≠ some "mobile" ∧
        options.settings.emulatedFormFactor ≠ some "desktop" ∧
        (strIncludes ua "Android" = true ∨ strIncludes ua "Mobile" = true)))) ∧
    (options.settings.emulatedFormFactor = some "desktop" →
      base.TestedAsMobileDevice = false) := by
  unfold getBaseArtifacts bindE liftE pureE at h
  rw [hua] at h
  simp only [Prod.mk.injEq, Except.ok.injEq] at h
  obtain ⟨hbase, hst⟩ := h
  subst hbase
  refine ⟨rfl, ?_, ?_⟩
  · simp only [mkBaseArtifacts, Bool.or_eq_true, Bool.and_eq_true, beq_iff_eq,
      Bool.not_eq_true', ← ne_eq, beq_eq_false_iff_ne]
    constructor
    · intro hcase
      rcases hcase with hm | ⟨hd, hin⟩
      · exact Or.inl hm
      · by_cases hm : options.settings.emulatedFormFactor = some "mobile"
        · exact Or.inl hm
        · exact Or.inr ⟨hm, hd, hin⟩
    · intro hcase
      rcases hcase with hm | ⟨_, hd, hin⟩
      · exact Or.inl hm
      · exact Or.inr ⟨hd, hin⟩
  · intro hd
    simp [mkBaseArtifacts, hd]

/-- Witness for C7: under a mobile form factor the flag is true. -/
theorem getBaseArtifacts_testedAsMobileDevice_witness :
    wBase.HostUserAgent = "TestBrowser/1.0" ∧
    (wBase.TestedAsMobileDevice = true ↔
      (runOpts.settings.emulatedFormFactor = some "mobile" ∨
       (runOpts.settings.emulatedFormFactor ≠ some "mobile" ∧
        runOpts.settings.emulatedFormFactor ≠ some "desktop" ∧
        (strIncludes "TestBrowser/1.0" "Android" = true ∨
         strIncludes "TestBrowser/1.0" "Mobile" = true)))) ∧
    (runOpts.settings.emulatedFormFactor = some "desktop" →
      wBase.TestedAsMobileDevice = false) :=
  getBaseArtifacts_testedAsMobileDevice okExt runOpts initState
    (getBaseArtifacts okExt runOpts initState).2 wBase "TestBrowser/1.0" rfl rfl

/-! ## Claim C2: the page load failure short-circuit of runPass -/

/-- C2.  For every pass whose classification (not suppressed by an
offline driver) reports a page load failure, runPass appends exactly one
warning carrying the user-facing message of that failure, invokes no
afterPass hook, and appends to every configured collector history a
rejection carrying the exact classified failure value, leaving the
already captured beforePass and pass outcomes in place. -/
theorem runPass_pageLoadFailure (driver : Driver) (ext : Externals)
    (ctx : PassContext) (st st' : RunState) (res : GathererResults)
    (ctx' : PassContext) (ple : LHError)
    (hrun : runPass driver ext ctx st = (.ok (res, ctx'), st'))
    (honline : driver.online = true)
    (hclass : getPageLoadError ctx'.url
      (ext.recordsFromLogs (driver.endDevtoolsLog st.logc)) = some ple)
    (hnodup : (ctx.passConfig.gatherers.map (fun g => g.name)).Nodup) :
    st'.base.LighthouseRunWarnings =
      st.base.LighthouseRunWarnings ++ [ple.friendlyMessage] ∧
    st'.events = st.events ++
      ctx.passConfig.gatherers.map (fun g => Event.invokeBeforePass g.name) ++
      ctx.passConfig.gatherers.map (fun g => Event.invokePass g.name) ∧
    (∀ nm, Event.invokeAfterPass nm ∉ st'.events.drop st.events.length) ∧
    (∀ g ∈ ctx.passConfig.gatherers, objGet res g.name =
      some [g.beforePassResult, g.passResult, PhaseOutcome.rejected (.lh ple)]) := by
  have hspec := runPass_ok_spec driver ext ctx st st' res ctx' hrun
  obtain ⟨_, _, _, _, _, _, _, _, hbranch⟩ := hspec
  rw [honline] at hbranch
  rw [if_pos rfl] at hbranch
  rw [hclass] at hbranch
  obtain ⟨hres, hevents, hwarn⟩ := hbranch
  refine ⟨hwarn, hevents, ?_, ?_⟩
  · intro nm
    rw [hevents, List.append_assoc, List.drop_left]
    simp
  · intro g hg
    rw [hres]
    rw [fillWithPageLoadErrors_get_mem ple _ _ g hg hnodup]
    rw [passPhaseLoop_get_mem _ _ g hg hnodup]
    rw [beforePassLoop_get_mem _ _ g hg hnodup]
    rfl

/-! ## Claim C9: a rejecting beforePass hook is isolated -/

/-- C9.  A rejecting beforePass hook of one collector prevents no hook
invocation: the invocation events of a successful pass still cover
every configured collector in every phase in configured order, the
rejection is recorded as that collector first outcome, and its own pass
and afterPass outcomes are still appended after it. -/
theorem runPass_beforePassRejection_isolated (driver : Driver) (ext : Externals)
    (ctx : PassContext) (st st' : RunState) (res : GathererResults)
    (ctx' : PassContext) (g : GathererDefn) (e : JSError)
    (hrun : runPass driver ext ctx st = (.ok (res, ctx'), st'))
    (hclean : (if driver.online
      then getPageLoadError ctx'.url
        (ext.recordsFromLogs (driver.endDevtoolsLog st.logc))
      else none) = none)
    (hnodup : (ctx.passConfig.gatherers.map (fun g => g.name)).Nodup)
    (hmem : g ∈ ctx.passConfig.gatherers)
    (hbp : g.beforePassResult = .rejected e) :
    st'.events = st.events ++
      ctx.passConfig.gatherers.map (fun g => Event.invokeBeforePass g.name) ++
      ctx.passConfig.gatherers.map (fun g => Event.invokePass g.name) ++
      ctx.passConfig.gatherers.map (fun g => Event.invokeAfterPass g.name) ∧
    objGet res g.name =
      some [PhaseOutcome.rejected e, g.passResult, g.afterPassResult] := by
  have hspec := runPass_ok_spec driver ext ctx st st' res ctx' hrun
  obtain ⟨_, _, _, _, _, _, _, _, hbranch⟩ := hspec
  rw [hclean] at hbranch
  obtain ⟨hres, hevents, _⟩ := hbranch
  refine ⟨hevents, ?_⟩
  rw [hres]
  rw [afterPassLoop_get_mem _ _ g hmem hnodup]
  rw [passPhaseLoop_get_mem _ _ g hmem hnodup]
  rw [beforePassLoop_get_mem _ _ g hmem hnodup]
  rw [hbp]
  rfl

/-! ## Helper lemmas: the top-level run -/

lemma loadBlank_state (driver : Driver) (url : String) (st : RunState) :
    ∃ r, loadBlank driver url st = (r, { st with nav := st.nav + 1 }) := by
  simp only [loadBlank, navGoto, bindE, pureE]
  cases driver.gotoURL st.nav url <;> exact ⟨_, rfl⟩

lemma setupDriver_state (driver : Driver) (options : RunOptions) (st : RunState) :
    ∃ r, setupDriver driver options st = (r, st) := by
  simp only [setupDriver, bindE, liftE, pureE]
  cases driver.assertNoSameOriginServiceWorkerClients options.requestedUrl
  case error e => exact ⟨_, rfl⟩
  case ok _ =>
  cases driver.beginEmulation
  case error e => exact ⟨_, rfl⟩
  case ok _ =>
  cases driver.enableRuntimeEvents
  case error e => exact ⟨_, rfl⟩
  case ok _ =>
  cases driver.enableAsyncStacks
  case error e => exact ⟨_, rfl⟩
  case ok _ =>
  cases driver.cacheNatives
  case error e => exact ⟨_, rfl⟩
  case ok _ =>
  cases driver.registerPerformanceObserver
  case error e => exact ⟨_, rfl⟩
  case ok _ =>
  cases driver.dismissJavaScriptDialogs
  case error e => exact ⟨_, rfl⟩
  case ok _ =>
  cases hrs : options.settings.disableStorageReset
  · simp only [Bool.false_eq_true, if_false]
    cases driver.clearDataForOrigin options.requestedUrl <;> exact ⟨_, rfl⟩
  · simp only [if_true]
    exact ⟨_, rfl⟩

lemma clearStorage_state (driver : Driver) (options : RunOptions) (st : RunState) :
    ∃ r, ((if options.settings.disableStorageReset then pureE ()
           else liftE (driver.clearDataForOrigin options.requestedUrl)) : EM Unit) st
      = (r, st) := by
  cases hrs : options.settings.disableStorageReset
  · simp only [Bool.false_eq_true, if_false, liftE]
    exact ⟨_, rfl⟩
  · simp only [if_true, pureE]
    exact ⟨_, rfl⟩

lemma getWebAppManifest_state (driver : Driver) (ext : Externals)
    (ctx : PassContext) (st : RunState) :
    ∃ r, getWebAppManifest driver ext ctx st = (r, st) := by
  simp only [getWebAppManifest, bindE, liftE, pureE]
  cases driver.getAppManifest
  case error e => exact ⟨_, rfl⟩
  case ok response =>
    cases response
    case none => exact ⟨_, rfl⟩
    case some pair => exact ⟨_, rfl⟩

lemma firstPassBlock_ok_spec (driver : Driver) (ext : Externals)
    (ctx' : PassContext) (cfg : PassConfig) (st st2 : RunState) (u : Unit)
    (h : firstPassBlock driver ext ctx' cfg st = (.ok u, st2)) :
    st2.base.URL = { requestedUrl := st.base.URL.requestedUrl, finalUrl := ctx'.url } ∧
    st2.events = st.events ∧ st2.nav = st.nav ∧ st2.logc = st.logc ∧
    st2.base.devtoolsLogs = st.base.devtoolsLogs ∧
    (match ((objGet st.base.devtoolsLogs cfg.passName).getD []).find? isUserAgentEntry with
     | some entry => st2.base.NetworkUserAgent = entry.requestHeaderUserAgent.getD ""
     | none => st2.base.NetworkUserAgent = st.base.NetworkUserAgent) := by
  simp only [firstPassBlock, bindE, modE, getWebAppManifest, liftE, pureE] at h
  cases hm : driver.getAppManifest
  case error e => rw [hm] at h; simp at h
  case ok response =>
  rw [hm] at h
  cases response
  case some pair =>
    cases hs : ext.stacksGatherer
    case error e => rw [hs] at h; simp [pureE] at h
    case ok stackList =>
      rw [hs] at h
      simp only [pureE] at h
      cases hfind : ((objGet st.base.devtoolsLogs cfg.passName).getD []).find? isUserAgentEntry
      case none =>
        rw [hfind] at h
        simp only [Prod.mk.injEq] at h
        obtain ⟨_, hst⟩ := h
        rw [← hst]
        exact ⟨rfl, rfl, rfl, rfl, rfl, rfl⟩
      case some entry =>
        rw [hfind] at h
        simp only [Prod.mk.injEq] at h
        obtain ⟨_, hst⟩ := h
        rw [← hst]
        exact ⟨rfl, rfl, rfl, rfl, rfl, rfl⟩
  case none =>
    cases hs : ext.stacksGatherer
    case error e => rw [hs] at h; simp [pureE] at h
    case ok stackList =>
      rw [hs] at h
      simp only [pureE] at h
      cases hfind : ((objGet st.base.devtoolsLogs cfg.passName).getD []).find? isUserAgentEntry
      case none =>
        rw [hfind] at h
        simp only [Prod.mk.injEq] at h
        obtain ⟨_, hst⟩ := h
        rw [← hst]
        exact ⟨rfl, rfl, rfl, rfl, rfl, rfl⟩
      case some entry =>
        rw [hfind] at h
        simp only [Prod.mk.injEq] at h
        obtain ⟨_, hst⟩ := h
        rw [← hst]
        exact ⟨rfl, rfl, rfl, rfl, rfl, rfl⟩

lemma passLoop_false_preserved (driver : Driver) (ext : Externals)
    (options : RunOptions) (ps : List PassConfig) (acc : GathererResults)
    (st st2 : RunState) (res : GathererResults)
    (h : passLoop driver ext options false ps acc st = (.ok res, st2)) :
    st2.base.URL = st.base.URL ∧
    st2.base.NetworkUserAgent = st.base.NetworkUserAgent := by
  induction ps generalizing acc st with
  | nil =>
    unfold passLoop pureE at h
    simp only [Prod.mk.injEq, Except.ok.injEq] at h
    rw [← h.2]
    exact ⟨rfl, rfl⟩
  | cons cfg rest ih =>
    simp only [passLoop, bindE, Bool.false_eq_true, if_false] at h
    obtain ⟨rb, hb⟩ := loadBlank_state driver (cfg.blankPage.getD defaultBlankPage) st
    rw [hb] at h
    cases rb
    case error e => simp at h
    case ok _ =>
    simp only [pureE] at h
    rcases hrp : runPass driver ext
      { url := options.requestedUrl, settings := options.settings, passConfig := cfg }
      { st with nav := st.nav + 1 } with ⟨rp, stB⟩
    rw [hrp] at h
    cases rp
    case error e => simp at h
    case ok pr =>
    have hspec := runPass_ok_spec driver ext _ _ _ pr.1 pr.2 (by rw [hrp])
    obtain ⟨_, _, _, _, _, hURL, hNUA, _, _⟩ := hspec
    simp only at h
    obtain ⟨hU2, hN2⟩ := ih _ _ h
    refine ⟨?_, ?_⟩
    · rw [hU2, hURL]
    · rw [hN2, hNUA]

lemma runMain_ok_dispose (ext : Externals) (passes : List PassConfig)
    (options : RunOptions) (res : GathererResults) (st' : RunState)
    (h : runMain ext passes options initState = (.ok res, st')) :
    Event.disposeDriver ∈ st'.events := by
  unfold runMain bindE disposeDriver modE pureE at h
  rcases hc : runCore ext passes options initState with ⟨rc, stC⟩
  rw [hc] at h
  cases rc
  case error e => simp at h
  case ok r =>
    simp only [Prod.mk.injEq, Except.ok.injEq] at h
    rw [← h.2]
    simp

lemma bindE_ok_inv {α β : Type} (x : EM α) (f : α → EM β) (st stout : RunState)
    (b : β) (h : bindE x f st = (.ok b, stout)) :
    ∃ a stmid, x st = (.ok a, stmid) ∧ f a stmid = (.ok b, stout) := by
  unfold bindE at h
  rcases hx : x st with ⟨rx, stm⟩
  rw [hx] at h
  cases rx
  case error e => simp at h
  case ok a => exact ⟨a, stm, rfl, h⟩

lemma liftE_ok_inv {α : Type} (x : Except JSError α) (st stout : RunState)
    (a : α) (h : liftE x st = (.ok a, stout)) : x = .ok a ∧ stout = st := by
  unfold liftE at h
  obtain ⟨h1, h2⟩ := Prod.mk.injEq .. ▸ h
  exact ⟨h1, h2.symm⟩

lemma modE_ok_inv (f : RunState → RunState) (st stout : RunState) (a : Unit)
    (h : modE f st = (.ok a, stout)) : stout = f st := by
  unfold modE at h
  obtain ⟨_, h2⟩ := Prod.mk.injEq .. ▸ h
  exact h2.symm

lemma pureE_ok_inv {α : Type} (v : α) (st stout : RunState) (a : α)
    (h : pureE v st = (.ok a, stout)) : a = v ∧ stout = st := by
  unfold pureE at h
  obtain ⟨h1, h2⟩ := Prod.mk.injEq .. ▸ h
  exact ⟨(Except.ok.injEq .. ▸ h1).symm, h2.symm⟩

lemma loadBlank_ok_inv (driver : Driver) (url : String) (st stout : RunState)
    (a : Unit) (h : loadBlank driver url st = (.ok a, stout)) :
    stout = { st with nav := st.nav + 1 } := by
  obtain ⟨r, hr⟩ := loadBlank_state driver url st
  rw [hr] at h
  obtain ⟨_, h2⟩ := Prod.mk.injEq .. ▸ h
  exact h2.symm

lemma setupDriver_ok_inv (driver : Driver) (options : RunOptions)
    (st stout : RunState) (a : Unit)
    (h : setupDriver driver options st = (.ok a, stout)) : stout = st := by
  obtain ⟨r, hr⟩ := setupDriver_state driver options st
  rw [hr] at h
  obtain ⟨_, h2⟩ := Prod.mk.injEq .. ▸ h
  exact h2.symm

lemma getBaseArtifacts_ok_inv (ext : Externals) (options : RunOptions)
    (st stout : RunState) (base : BaseArtifacts)
    (h : getBaseArtifacts ext options st = (.ok base, stout)) :
    ∃ ua, options.driver.getBrowserVersionUserAgent = .ok ua ∧
      base = mkBaseArtifacts ext options ua ∧ stout = st := by
  simp only [getBaseArtifacts, bindE, liftE, pureE] at h
  cases hua : options.driver.getBrowserVersionUserAgent
  case error e => rw [hua] at h; simp at h
  case ok ua =>
    rw [hua] at h
    simp only [Prod.mk.injEq, Except.ok.injEq] at h
    exact ⟨ua, rfl, h.1.symm, h.2.symm⟩

lemma runCore_ok_spec (ext : Externals) (p1 : PassConfig) (rest : List PassConfig)
    (options : RunOptions) (res : GathererResults) (st' : RunState)
    (h : runCore ext (p1 :: rest) options initState = (.ok res, st')) :
    ∃ ua u,
      options.driver.getBrowserVersionUserAgent = .ok ua ∧
      options.driver.gotoURL 1 options.requestedUrl = .ok u ∧
      st'.base.URL = { requestedUrl := options.requestedUrl, finalUrl := u } ∧
      (match (options.driver.endDevtoolsLog 0).find? isUserAgentEntry with
       | some entry => st'.base.NetworkUserAgent = entry.requestHeaderUserAgent.getD ""
       | none => st'.base.NetworkUserAgent = "") := by
  unfold runCore at h
  obtain ⟨_, st1, hstep1, h⟩ := bindE_ok_inv _ _ _ _ _ h
  obtain ⟨hconn, hst1⟩ := liftE_ok_inv _ _ _ _ hstep1
  obtain ⟨baseA, st2, hstep2, h⟩ := bindE_ok_inv _ _ _ _ _ h
  obtain ⟨ua, hua, hbaseA, hst2⟩ := getBaseArtifacts_ok_inv _ _ _ _ _ hstep2
  obtain ⟨_, st3, hstep3, h⟩ := bindE_ok_inv _ _ _ _ _ h
  have hst3 := modE_ok_inv _ _ _ _ hstep3
  obtain ⟨_, st4, hstep4, h⟩ := bindE_ok_inv _ _ _ _ _ h
  have hst4 := loadBlank_ok_inv _ _ _ _ _ hstep4
  obtain ⟨bench, st5, hstep5, h⟩ := bindE_ok_inv _ _ _ _ _ h
  obtain ⟨hbench, hst5⟩ := liftE_ok_inv _ _ _ _ hstep5
  obtain ⟨_, st6, hstep6, h⟩ := bindE_ok_inv _ _ _ _ _ h
  have hst6 := modE_ok_inv _ _ _ _ hstep6
  obtain ⟨_, st7, hstep7, h⟩ := bindE_ok_inv _ _ _ _ _ h
  have hst7 := setupDriver_ok_inv _ _ _ _ _ hstep7
  have hnav7 : st7.nav = 1 := by
    simp [hst7, hst6, hst5, hst4, hst3, hst2, hst1, initState]
  have hlogc7 : st7.logc = 0 := by
    simp [hst7, hst6, hst5, hst4, hst3, hst2, hst1, initState]
  have hURL7 : st7.base.URL = { requestedUrl := options.requestedUrl, finalUrl := "" } := by
    simp [hst7, hst6, hst5, hst4, hst3, hst2, hst1, hbaseA, initState, mkBaseArtifacts]
  have hNUA7 : st7.base.NetworkUserAgent = "" := by
    simp [hst7, hst6, hst5, hst4, hst3, hst2, hst1, hbaseA, initState, mkBaseArtifacts]
  have hdl7 : st7.base.devtoolsLogs = [] := by
    simp [hst7, hst6, hst5, hst4, hst3, hst2, hst1, hbaseA, initState, mkBaseArtifacts]
  obtain ⟨gres, stZ, hpl, h⟩ := bindE_ok_inv _ _ _ _ _ h
  obtain ⟨_, stW, hstepW, h⟩ := bindE_ok_inv _ _ _ _ _ h
  obtain ⟨rcl, hrcl⟩ := clearStorage_state options.driver options stZ
  rw [hrcl] at hstepW
  obtain ⟨_, hstW⟩ := Prod.mk.injEq .. ▸ hstepW
  obtain ⟨hres, hstout⟩ := pureE_ok_inv _ _ _ _ h
  simp only [passLoop, bindE, if_true, pureE] at hpl
  rcases hrp : runPass options.driver ext
      { url := options.requestedUrl, settings := options.settings, passConfig := p1 }
      st7 with ⟨rp, stD⟩
  rw [hrp] at hpl
  cases rp
  case error e => simp at hpl
  case ok pr =>
  have hspec := runPass_ok_spec _ _ _ _ _ pr.1 pr.2 (by rw [hrp])
  obtain ⟨hgoto, _, _, _, _, hURLD, hNUAD, hdlogsD, _⟩ := hspec
  simp only at hpl
  obtain ⟨_, stE, hfb, hpl⟩ := bindE_ok_inv _ _ _ _ _ hpl
  obtain ⟨hfbURL, _, _, _, _, hfbNUA⟩ := firstPassBlock_ok_spec _ _ _ _ _ _ _ hfb
  obtain ⟨hplURL, hplNUA⟩ := passLoop_false_preserved _ _ _ _ _ _ _ _ hpl
  refine ⟨ua, pr.2.url, hua, ?_, ?_, ?_⟩
  · rw [← hnav7]
    exact hgoto
  · rw [hstout, ← hstW, hplURL, hfbURL, hURLD, hURL7]
  · have hdlookup : ((objGet stD.base.devtoolsLogs p1.passName).getD []) =
        options.driver.endDevtoolsLog 0 := by
      rw [hdlogsD, hdl7, hlogc7, objGet_objSet_self]
      rfl
    rw [hdlookup] at hfbNUA
    cases hfind : (options.driver.endDevtoolsLog 0).find? isUserAgentEntry
    case none =>
      rw [hfind] at hfbNUA
      rw [hstout, ← hstW, hplNUA, hfbNUA, hNUAD, hNUA7]
    case some entry =>
      rw [hfind] at hfbNUA
      rw [hstout, ← hstW, hplNUA, hfbNUA]

/-! ## Claim C6: fatal errors dispose the driver and re-raise -/

/-- C6.  Whenever an exception escapes any step of run: an error from
steps 1 to 8 is re-raised unchanged after the fire-and-forget disposal
of the catch clause; an assembly error propagates after the awaited
disposal of the success path; and in every case in which run fails the
disposal event is in the trace and no artifact bundle is returned. -/
theorem run_fatalError (ext : Externals) (passes : List PassConfig)
    (options : RunOptions) :
    (∀ e st', runMain ext passes options initState = (.error e, st') →
      run ext passes options = (.error e, st'.events ++ [Event.disposeDriver])) ∧
    (∀ res st' e, runMain ext passes options initState = (.ok res, st') →
      collectArtifacts res st'.base = .error e →
      run ext passes options = (.error e, st'.events) ∧
        Event.disposeDriver ∈ st'.events) ∧
    (∀ e, (run ext passes options).1 = .error e →
      Event.disposeDriver ∈ (run ext passes options).2) := by
  refine ⟨?_, ?_, ?_⟩
  · intro e st' h
    unfold run
    rw [h]
  · intro res st' e h hc
    constructor
    · unfold run
      rw [h]
      simp only [hc]
    · exact runMain_ok_dispose ext passes options res st' h
  · intro e he
    unfold run at he ⊢
    rcases hm : runMain ext passes options initState with ⟨rm, stM⟩
    rw [hm] at he
    cases rm
    case error e2 => simp
    case ok results =>
      exact runMain_ok_dispose ext passes options results stM (by rw [hm])

/-- Witness for C6: a driver whose connection fails aborts the run with
that exact error after recording the disposal attempt. -/
theorem run_fatalError_witness :
    run okExt [passOne] badOpts =
      (.error (.other "no chrome"), initState.events ++ [Event.disposeDriver]) :=
  (run_fatalError okExt [passOne] badOpts).1 (.other "no chrome") initState rfl

/-! ## Claim C8: requested and final URL after a first-pass redirect -/

/-- C8.  When the first pass navigation redirects, the returned bundle
records the post-redirect URL of the first pass as finalUrl while
requestedUrl stays the originally requested URL, untouched by the
redirect and by every later pass. -/
theorem run_firstPass_urls (ext : Externals) (p1 : PassConfig)
    (rest : List PassConfig) (options : RunOptions) (arts : Artifacts)
    (evs : List Event) (finalUrl : String)
    (hgoto : options.driver.gotoURL 1 options.requestedUrl = .ok finalUrl)
    (hredirect : finalUrl ≠ options.requestedUrl)
    (hrun : run ext (p1 :: rest) options = (.ok arts, evs)) :
    arts.base.URL.requestedUrl = options.requestedUrl ∧
    arts.base.URL.finalUrl = finalUrl := by
  unfold run at hrun
  rcases hm : runMain ext (p1 :: rest) options initState with ⟨rm, stM⟩
  rw [hm] at hrun
  cases rm
  case error e => simp at hrun
  case ok results =>
  simp only [Prod.mk.injEq] at hrun
  obtain ⟨hcoll, _⟩ := hrun
  unfold runMain bindE at hm
  rcases hc : runCore ext (p1 :: rest) options initState with ⟨rc, stC⟩
  rw [hc] at hm
  cases rc
  case error e => simp at hm
  case ok res0 =>
  simp only [disposeDriver, modE, pureE, Prod.mk.injEq, Except.ok.injEq] at hm
  obtain ⟨_, hstM⟩ := hm
  obtain ⟨ua, u, _, hg, hURL, _⟩ := runCore_ok_spec ext p1 rest options res0 stC (by rw [hc])
  have hu : u = finalUrl := by
    rw [hg] at hgoto
    exact (Except.ok.injEq .. ▸ hgoto)
  obtain ⟨hartsURL, _⟩ := collectArtifacts_ok_base results stM.base arts hcoll
  have hbaseM : stM.base = stC.base := by rw [← hstM]
  rw [hartsURL, hbaseM, hURL, hu]
  exact ⟨rfl, rfl⟩

/-- Witness for C8: the fixture run redirects from http://a.test/ to
http://a.test/b on the first pass. -/
theorem run_firstPass_urls_witness :
    wArtifacts.base.URL.requestedUrl = "http://a.test/" ∧
    wArtifacts.base.URL.finalUrl = "http://a.test/b" :=
  run_firstPass_urls okExt passOne [] runOpts wArtifacts wRun.2 "http://a.test/b"
    rfl (by decide) rfl

/-! ## Claim C10: the network user agent default -/

/-- C10.  When the first pass devtools log contains no
Network.requestWillBeSent entry whose request headers carry a truthy
User-Agent value, the returned bundle keeps the empty NetworkUserAgent
it was initialized with, whatever the later passes contain. -/
theorem run_networkUserAgent_default (ext : Externals) (p1 : PassConfig)
    (rest : List PassConfig) (options : RunOptions) (arts : Artifacts)
    (evs : List Event)
    (hlog : ∀ entry ∈ options.driver.endDevtoolsLog 0, isUserAgentEntry entry = false)
    (hrun : run ext (p1 :: rest) options = (.ok arts, evs)) :
    arts.base.NetworkUserAgent = "" := by
  unfold run at hrun
  rcases hm : runMain ext (p1 :: rest) options initState with ⟨rm, stM⟩
  rw [hm] at hrun
  cases rm
  case error e => simp at hrun
  case ok results =>
  simp only [Prod.mk.injEq] at hrun
  obtain ⟨hcoll, _⟩ := hrun
  unfold runMain bindE at hm
  rcases hc : runCore ext (p1 :: rest) options initState with ⟨rc, stC⟩
  rw [hc] at hm
  cases rc
  case error e => simp at hm
  case ok res0 =>
  simp only [disposeDriver, modE, pureE, Prod.mk.injEq, Except.ok.injEq] at hm
  obtain ⟨_, hstM⟩ := hm
  obtain ⟨ua, u, _, _, _, hNUA⟩ := runCore_ok_spec ext p1 rest options res0 stC (by rw [hc])
  have hfind : (options.driver.endDevtoolsLog 0).find? isUserAgentEntry = none := by
    apply List.find?_eq_none.2
    intro entry hentry hc2
    rw [hlog entry hentry] at hc2
    cases hc2
  rw [hfind] at hNUA
  obtain ⟨_, hartsNUA⟩ := collectArtifacts_ok_base results stM.base arts hcoll
  have hbaseM : stM.base = stC.base := by rw [← hstM]
  rw [hartsNUA, hbaseM, hNUA]

/-- Witness for C10: the fixture driver records an empty devtools log,
so the bundle keeps the empty network user agent. -/
theorem run_networkUserAgent_default_witness :
    wArtifacts.base.NetworkUserAgent = "" :=
  run_networkUserAgent_default okExt passOne [] runOpts wArtifacts wRun.2
    (by intro entry hentry; cases hentry) rfl

/-- Witness for C2: the failing fixture pass warns once, runs no
afterPass hook, and fills both collector histories with the
NO_DOCUMENT_REQUEST rejection. -/
theorem runPass_pageLoadFailure_witness :
    wFailPass.2.base.LighthouseRunWarnings =
      initState.base.LighthouseRunWarnings ++
        [LHError.friendlyMessage { code := .NO_DOCUMENT_REQUEST }] ∧
    wFailPass.2.events = initState.events ++
      ctxOne.passConfig.gatherers.map (fun g => Event.invokeBeforePass g.name) ++
      ctxOne.passConfig.gatherers.map (fun g => Event.invokePass g.name) ∧
    (∀ nm, Event.invokeAfterPass nm ∉ wFailPass.2.events.drop initState.events.length) ∧
    (∀ g ∈ ctxOne.passConfig.gatherers, objGet wFailRes.1 g.name =
      some [g.beforePassResult, g.passResult,
            PhaseOutcome.rejected (.lh { code := .NO_DOCUMENT_REQUEST })]) :=
  runPass_pageLoadFailure plainDriver failExt ctxOne initState wFailPass.2
    wFailRes.1 wFailRes.2 { code := .NO_DOCUMENT_REQUEST } rfl rfl rfl (by decide)

/-- Witness for C9: the rejecting beforePass hook of gatherer B does not
keep any hook of the clean fixture pass from running, and the pass and
afterPass outcomes of B still follow its recorded rejection. -/
theorem runPass_beforePassRejection_isolated_witness :
    wCleanPass.2.events = initState.events ++
      ctxOne.passConfig.gatherers.map (fun g => Event.invokeBeforePass g.name) ++
      ctxOne.passConfig.gatherers.map (fun g => Event.invokePass g.name) ++
      ctxOne.passConfig.gatherers.map (fun g => Event.invokeAfterPass g.name) ∧
    objGet wCleanRes.1 gathererB.name =
      some [PhaseOutcome.rejected (.other "beforeBoom"), gathererB.passResult,
            gathererB.afterPassResult] :=
  runPass_beforePassRejection_isolated plainDriver plainExt ctxOne initState
    wCleanPass.2 wCleanRes.1 wCleanRes.2 gathererB (.other "beforeBoom")
    rfl rfl (by decide) (by decide) rfl

end Lighthouse
